import Mathlib

/-!
Shallow embedding of the numeric core of the Region-based-skill-half-life
backend (services/half_life_service.py, forecast_service.py,
gap_analysis_service.py, stability_radar_service.py, pivot_service.py,
simulation_service.py).

Python floats are modelled as exact rationals (ℚ); the only genuinely
irrational operations (numpy std, CAGR roots) are modelled over ℝ with
`Real.sqrt` / real powers.  Fallible functions return `Except String`.
-/

namespace RSHL

/-- Python `round` (banker's rounding, round-half-to-even) to an integer. -/
def pyRound {α : Type} [LinearOrderedField α] [FloorRing α] (x : α) : ℤ :=
  if x - (Int.floor x : α) = 1 / 2 then
    (if Int.floor x % 2 = 0 then Int.floor x else Int.floor x + 1)
  else Int.floor (x + 1 / 2)

/-- Python `round(x, n)`: round to `n` decimal digits, half to even. -/
def roundTo {α : Type} [LinearOrderedField α] [FloorRing α] (n : ℕ) (x : α) : α :=
  ((pyRound (x * 10 ^ n) : ℤ) : α) / 10 ^ n

/-- `numpy.isclose(a, b)` with default tolerances `rtol=1e-5`, `atol=1e-8`. -/
def npIsClose {α : Type} [LinearOrderedField α] (a b : α) : Prop :=
  |a - b| ≤ 1 / 10 ^ 8 + |b| / 10 ^ 5

instance {α : Type} [LinearOrderedField α] (a b : α) : Decidable (npIsClose a b) := by
  unfold npIsClose; exact inferInstance

/-- Clamp to the interval `[0, 100]` (the pervasive `max(0.0, min(100.0, x))`). -/
def clampScore {α : Type} [LinearOrderedField α] (x : α) : α := max 0 (min 100 x)

/-- Arithmetic mean of a list (numpy `mean`; 0-division on `[]` is never hit). -/
def meanList (l : List ℚ) : ℚ := l.sum / l.length

/-- Population variance (square of numpy `std` with `ddof=0`). -/
def varList (l : List ℚ) : ℚ :=
  if l.length = 0 then 0 else meanList (l.map (fun x => (x - meanList l) ^ 2))

/-- numpy `std` (population standard deviation). -/
noncomputable def npStd (l : List ℚ) : ℝ := Real.sqrt (varList l)

/-- numpy `diff`: consecutive differences `x[i+1] - x[i]`. -/
def diffList (l : List ℚ) : List ℚ := List.zipWith (fun a b => b - a) l l.tail

/-- Period-over-period returns `np.diff(x) / np.maximum(x[:-1], 1e-8)`. -/
def returnsList (l : List ℚ) : List ℚ :=
  List.zipWith (fun prev next => (next - prev) / max prev (1 / 10 ^ 8)) l l.tail

/-- Helper for `argmaxIdx`: scan keeping the first index of the maximum. -/
def argmaxFrom : ℕ → ℕ → ℚ → List ℚ → ℕ
  | _, bestIdx, _, [] => bestIdx
  | i, bestIdx, bestVal, x :: rest =>
      if bestVal < x then argmaxFrom (i + 1) i x rest
      else argmaxFrom (i + 1) bestIdx bestVal rest

/-- numpy `argmax`: index of the first occurrence of the maximum value. -/
def argmaxIdx : List ℚ → ℕ
  | [] => 0
  | x :: rest => argmaxFrom 1 0 x rest

/-- Slope of the ordinary-least-squares line of `ys` against `xs`
(sklearn `LinearRegression().coef_[0]`; degenerate design gives slope 0). -/
def olsSlope (xs ys : List ℚ) : ℚ :=
  let xm := meanList xs
  let ym := meanList ys
  let sxx := (xs.map (fun x => (x - xm) ^ 2)).sum
  let sxy := (List.zipWith (fun x y => (x - xm) * (y - ym)) xs ys).sum
  if sxx = 0 then 0 else sxy / sxx

/-- Intercept of the ordinary-least-squares line of `ys` against `xs`. -/
def olsIntercept (xs ys : List ℚ) : ℚ := meanList ys - olsSlope xs ys * meanList xs

/-- Prediction of the fitted OLS model at a point `x`. -/
def olsPredict (xs ys : List ℚ) (x : ℚ) : ℚ := olsSlope xs ys * x + olsIntercept xs ys

/-- sklearn `r2_score` (with its constant-target conventions). -/
def r2Score (yTrue yPred : List ℚ) : ℚ :=
  let ym := meanList yTrue
  let ssRes := (List.zipWith (fun a b => (a - b) ^ 2) yTrue yPred).sum
  let ssTot := (yTrue.map (fun y => (y - ym) ^ 2)).sum
  if ssTot = 0 then (if ssRes = 0 then 1 else 0) else 1 - ssRes / ssTot

/-- numpy `percentile` with the default linear-interpolation method. -/
def percentileNP (l : List ℚ) (q : ℚ) : ℚ :=
  let s := List.insertionSort (fun a b => a ≤ b) l
  let h : ℚ := q * ((l.length : ℚ) - 1) / 100
  let i : ℕ := (Int.floor h).toNat
  let lo := s.getD i 0
  let hi := s.getD (i + 1) lo
  lo + (h - (i : ℚ)) * (hi - lo)

/-- Python tail slice `l[-w:]` for an integer `w` (mirrors negative-index rules). -/
def pyTail {α : Type} (l : List α) (w : ℤ) : List α :=
  if 0 < w then l.drop (l.length - w.toNat)
  else if w = 0 then l
  else l.drop (-w).toNat

/-- Peel `Except`: did the call succeed? -/
def exOk {ε α : Type} : Except ε α → Bool
  | .ok _ => true
  | .error _ => false

/-- Peel `Except`: the success value, or `default` on the error branch. -/
def exGet {ε α : Type} [Inhabited α] : Except ε α → α
  | .ok a => a
  | .error _ => default

/-! ## half_life_service -/

/-- `HalfLifeConfig` from half_life_service.py. -/
structure HalfLifeConfig where
  required_years : ℕ
  start_year : ℤ
  recent_window : ℤ
  forecast_years : ℕ
deriving DecidableEq

/-- The default configuration (40 years from 1985, window 12, horizon 5). -/
def defaultConfig : HalfLifeConfig := ⟨40, 1985, 12, 5⟩

/-- `_validate_input`: length, negativity and zero-variation checks.
NaN/Infinity cannot arise in the exact-rational model, so that check is
vacuously satisfied. -/
def validateInput (demand : List ℚ) (cfg : HalfLifeConfig) : Except String (List ℚ) :=
  if demand.length ≠ cfg.required_years then
    .error "Demand data must include exactly the required number of years."
  else if ∃ x ∈ demand, x < 0 then
    .error "Demand data cannot contain negative values."
  else if ∀ x ∈ demand, npIsClose x demand.headI then
    .error "Demand data has no variation; half-life analytics is not meaningful."
  else .ok demand

/-- Scan loop of `_interpolate_crossing_year` over (year, value) pairs. -/
def crossScan (thr : ℚ) : List (ℚ × ℚ) → Option ℚ
  | (y0, v0) :: (y1, v1) :: rest =>
      if thr ≤ v0 ∧ v1 ≤ thr ∧ ¬npIsClose v0 v1 then
        some (y0 + (thr - v0) * (y1 - y0) / (v1 - v0))
      else crossScan thr ((y1, v1) :: rest)
  | _ => none

/-- `_interpolate_crossing_year`: first adjacent pair straddling the threshold
(values not numerically close), linearly interpolated. -/
def interpolateCrossingYear (years values : List ℚ) (thr : ℚ) : Option ℚ :=
  crossScan thr (years.zip values)

/-- `_estimate_half_life_via_regression`: regression fallback; returns the
estimated year (if any) and the regression fit R². -/
def estimateHalfLifeRegression (years values : List ℚ) (halfValue : ℚ) : Option ℚ × ℚ :=
  let slope := olsSlope years values
  let intercept := olsIntercept years values
  let preds := years.map (olsPredict years values)
  let fitR2 := if 1 < values.length then r2Score values preds else 0
  if 0 ≤ slope then (none, fitR2)
  else
    let est := (halfValue - intercept) / slope
    if est < years.headI then (none, fitR2) else (some est, fitR2)

/-- The recent-history slice used by `_forecast_next_years`:
`series[-window:]` with `window = min(recent_window, len(series))`. -/
def recentSlice (l : List ℚ) (rw : ℤ) : List ℚ := pyTail l (min rw (l.length : ℤ))

/-- Result triple of `_forecast_next_years`. -/
structure ForecastOut where
  points : List (ℤ × ℚ)
  recentSlope : ℚ
  fitR2 : ℚ
deriving DecidableEq, Inhabited

/-- `_forecast_next_years`: OLS on the recent window, clamped predictions. -/
def forecastNextYears (years series : List ℚ) (fyears : ℕ) (rw : ℤ) : ForecastOut :=
  let xr := recentSlice years rw
  let yr := recentSlice series rw
  let slope := olsSlope xr yr
  let inSample := xr.map (olsPredict xr yr)
  let r2 := if 1 < yr.length then r2Score yr inSample else 0
  let lastYear : ℤ := Int.floor (years.getLastD 0)
  let points := (List.range fyears).map (fun k : ℕ =>
    ((lastYear + 1 + (k : ℤ)), roundTo 6 (max (olsPredict xr yr ((lastYear + 1 + (k : ℤ) : ℤ) : ℚ)) 0)))
  ⟨points, slope, r2⟩

/-- The full numeric payload computed by `compute_skill_half_life_analytics`
except for the np.std-based signal scores (kept separate so this part stays
computable).  Raw (unrounded) values are kept alongside the rounded output
fields exactly where the source keeps both. -/
structure CoreOut where
  dataPoints : ℕ
  startYear : ℤ
  endYear : ℤ
  peakIdx : ℕ
  peakYear : ℤ
  peakValue : ℚ
  postPeakSlope : ℚ
  halfValue : ℚ
  halfLifeYearRaw : Option ℚ
  halfLifeYear : Option ℚ
  yearsFromPeak : Option ℚ
  estimationMethod : String
  postPeakR2 : ℚ
  postPeakCount : ℕ
  recentSlope : ℚ
  forecastR2 : ℚ
  forecastPoints : List (ℤ × ℚ)
  windowYears : ℤ
deriving DecidableEq, Inhabited

/-- The year axis `start_year .. start_year + required_years - 1` (as rationals). -/
def yearsOf (cfg : HalfLifeConfig) : List ℚ :=
  (List.range cfg.required_years).map (fun i : ℕ => (cfg.start_year : ℚ) + (i : ℚ))

/-- Body of `compute_skill_half_life_analytics` after the validation guards
(peak detection, post-peak regression, crossing interpolation with regression
fallback, forecast). -/
def coreBody (series : List ℚ) (cfg : HalfLifeConfig) : CoreOut :=
  let years := yearsOf cfg
  let pIdx := argmaxIdx series
  let pYear : ℤ := cfg.start_year + pIdx
  let pVal := series.getD pIdx 0
  let postY := years.drop pIdx
  let postV := series.drop pIdx
  let ppSlope := olsSlope postY postV
  let ppPreds := postY.map (olsPredict postY postV)
  let ppR2 := if 1 < postV.length then r2Score postV ppPreds else 0
  let half := pVal / 2
  let cross := interpolateCrossingYear postY postV half
  let reg := estimateHalfLifeRegression postY postV half
  let raw : Option ℚ := match cross with | some y => some y | none => reg.1
  let method : String := match cross with
    | some _ => "observed"
    | none => match reg.1 with | some _ => "regression_estimate" | none => "not_reached"
  let r2eff : ℚ := match cross with | some _ => ppR2 | none => max ppR2 reg.2
  let fc := forecastNextYears years series cfg.forecast_years cfg.recent_window
  { dataPoints := series.length
    startYear := cfg.start_year
    endYear := cfg.start_year + (cfg.required_years : ℤ) - 1
    peakIdx := pIdx
    peakYear := pYear
    peakValue := pVal
    postPeakSlope := ppSlope
    halfValue := half
    halfLifeYearRaw := raw
    halfLifeYear := raw.map (fun y => roundTo 6 y)
    yearsFromPeak := raw.map (fun y => roundTo 6 (y - (pYear : ℚ)))
    estimationMethod := method
    postPeakR2 := r2eff
    postPeakCount := postV.length
    recentSlope := fc.recentSlope
    forecastR2 := fc.fitR2
    forecastPoints := fc.points
    windowYears := min cfg.recent_window (series.length : ℤ) }

/-- `compute_skill_half_life_analytics`, computable part: validation guards
plus `coreBody`. -/
def computeCore (demand : List ℚ) (cfg : HalfLifeConfig) : Except String CoreOut :=
  match validateInput demand cfg with
  | .error e => .error e
  | .ok series =>
      if (series.length : ℤ) - 2 ≤ (argmaxIdx series : ℤ) then
        .error "Insufficient post-peak observations to compute decay dynamics."
      else .ok (coreBody series cfg)

/-- Total accessor for the core analytics payload (defaulted on the error path). -/
def coreD (demand : List ℚ) (cfg : HalfLifeConfig) : CoreOut := exGet (computeCore demand cfg)

/-- `_trend_direction_from_slope` with `epsilon = 1e-4`. -/
def trendDirection (slope : ℚ) : String :=
  if 1 / 10 ^ 4 < slope then "upward"
  else if slope < -(1 / 10 ^ 4) then "downward"
  else "flat"

/-- `_calculate_volatility_index` (real-valued because of numpy `std`). -/
noncomputable def volatilityIndex (series : List ℚ) : ℝ :=
  let meanLevel : ℚ := if npIsClose (meanList series) 0 then 1 else meanList series
  let volByDiff : ℝ := npStd (diffList series) / (meanLevel : ℝ)
  let volByReturns : ℝ := npStd (returnsList series)
  let raw : ℝ := 0.6 * volByDiff + 0.4 * volByReturns
  roundTo 4 (clampScore (raw * 300))

/-- `_calculate_stability_score`. -/
noncomputable def stabilityScoreOf (vol : ℝ) (ppSlope recentSlope : ℚ) : ℝ :=
  let volatilityPenalty : ℝ := vol * 0.55
  let decayPenalty : ℝ := max 0 (-(ppSlope : ℝ)) * 0.35
  let recentDeclinePenalty : ℝ := max 0 (-(recentSlope : ℝ)) * 0.25
  roundTo 4 (clampScore (100 - volatilityPenalty - decayPenalty - recentDeclinePenalty))

/-- `_calculate_confidence_score`. -/
noncomputable def confidenceScoreOf (points : ℕ) (ppR2 fR2 : ℚ) (vol : ℝ) (direct : Bool) : ℝ :=
  let dataCompleteness : ℝ := min 1 ((points : ℝ) / 15)
  let r2Component : ℝ := max 0 (min 1 (((ppR2 : ℝ) + (fR2 : ℝ)) / 2))
  let volComponent : ℝ := max 0 (1 - vol / 100)
  let hlComponent : ℝ := if direct then 1 else 0.75
  roundTo 4 (clampScore
    ((0.30 * dataCompleteness + 0.35 * r2Component + 0.20 * volComponent + 0.15 * hlComponent) * 100))

/-- The output of `compute_skill_half_life_analytics`: the computable core
plus the four signal scores. -/
structure Analytics where
  core : CoreOut
  stabilityScore : ℝ
  volatilityIndex : ℝ
  trendDir : String
  confidenceScore : ℝ

/-- Signal assembly of `compute_skill_half_life_analytics` (total function of
the input; meaningful under the validation guards). -/
noncomputable def analyticsOf (demand : List ℚ) (cfg : HalfLifeConfig) : Analytics :=
  let c := coreD demand cfg
  let vol := volatilityIndex demand
  { core := c
    stabilityScore := stabilityScoreOf vol c.postPeakSlope c.recentSlope
    volatilityIndex := vol
    trendDir := trendDirection c.recentSlope
    confidenceScore := confidenceScoreOf c.postPeakCount c.postPeakR2 c.forecastR2 vol
      (decide (c.estimationMethod = "observed")) }

/-- `compute_skill_half_life_analytics`: guards propagate as errors, success
carries the full analytics payload. -/
noncomputable def computeSkillHalfLifeAnalytics (demand : List ℚ) (cfg : HalfLifeConfig) :
    Except String Analytics :=
  match computeCore demand cfg with
  | .error e => .error e
  | .ok _ => .ok (analyticsOf demand cfg)

/-! ## gap_analysis_service.evaluate_volatility_and_risk -/

/-- Result of `evaluate_volatility_and_risk` (volatility echo, composite risk
score with level, and the driver breakdown). -/
structure RiskOut where
  volatilityOut : ℝ
  riskScore : ℝ
  riskLevel : String
  competitionPressure : ℚ
  demandVolatility : ℝ
  confidencePenalty : ℝ

/-- `evaluate_volatility_and_risk`.  In the analytics pipeline the signals
dictionary is always populated, so the dictionary-absence fallbacks of the
source are never taken and the signal values are read from `a` directly. -/
noncomputable def evalVolatilityAndRisk (demand competition : List ℚ) (a : Analytics) : RiskOut :=
  let demandVol : ℝ := npStd (returnsList demand)
  let compPressure : ℚ := meanList competition
  let vol : ℝ := a.volatilityIndex
  let conf : ℝ := a.confidenceScore
  let hlRisk : ℝ := match a.core.yearsFromPeak with
    | none => 25
    | some v => clampScore (100 - (v : ℝ) * 2)
  let score : ℝ := clampScore
    (0.42 * vol + 0.28 * (compPressure : ℝ) + 0.20 * hlRisk + 0.10 * (100 - conf))
  { volatilityOut := roundTo 4 vol
    riskScore := roundTo 4 score
    riskLevel := if 70 ≤ score then "high" else if 40 ≤ score then "medium" else "low"
    competitionPressure := roundTo 4 compPressure
    demandVolatility := roundTo 6 demandVol
    confidencePenalty := roundTo 4 (100 - conf) }

/-! ## stability_radar_service -/

/-- `_clamp_0_100` of stability_radar_service (clamp then round to 4 places). -/
def radarClamp {α : Type} [LinearOrderedField α] [FloorRing α] (x : α) : α :=
  roundTo 4 (clampScore x)

/-- `_normalize_relative_position`: map `current` onto `[lower, upper]` as a
0–100 position, with the fixed midpoint 50 when the band is degenerate
(numerically close endpoints). -/
def normalizeRelativePosition {α : Type} [LinearOrderedField α] [FloorRing α]
    (current lower upper : α) : α :=
  if npIsClose upper lower then 50
  else radarClamp ((current - lower) / (upper - lower) * 100)

/-- `_compute_demand_strength`: final value against the series' own
10th–90th percentile band. -/
def computeDemandStrength (demand : List ℚ) : ℚ :=
  normalizeRelativePosition (demand.getLastD 0) (percentileNP demand 10) (percentileNP demand 90)

/-- `_compute_competition_score` (same band normalization on the competition
series). -/
def computeCompetitionScore (competition : List ℚ) : ℚ :=
  normalizeRelativePosition (competition.getLastD 0)
    (percentileNP competition 10) (percentileNP competition 90)

/-- `_compute_salary_growth`: CAGR of the salary series mapped from the band
[-5%, +12%] onto 0–100 (real-valued because of the `1/years` root). -/
noncomputable def computeSalaryGrowth (salary : List ℚ) : ℝ :=
  if salary.length < 2 then 50
  else
    let s : ℚ := max salary.headI (1 / 10 ^ 6)
    let e : ℚ := max (salary.getLastD 0) (1 / 10 ^ 6)
    let yrs : ℕ := max 1 (salary.length - 1)
    let cagr : ℝ := ((e : ℝ) / (s : ℝ)) ^ ((1 : ℝ) / (yrs : ℝ)) - 1
    normalizeRelativePosition cagr (-(5 / 100)) (12 / 100)

/-- `_compute_automation_risk`. -/
noncomputable def computeAutomationRisk (volScore compScore demandStrength : ℝ)
    (yfp : Option ℚ) (trend : String) : ℝ :=
  let trendPenalty : ℝ := if trend = "downward" then 20 else if trend = "flat" then 10 else 0
  let demandRisk : ℝ := 100 - demandStrength
  let hlRisk : ℝ := match yfp with
    | none => 45
    | some v => radarClamp (100 - (v : ℝ) * 2.2)
  radarClamp
    (0.28 * volScore + 0.24 * compScore + 0.22 * demandRisk + 0.18 * hlRisk + 0.08 * trendPenalty)

/-- Output of `build_stability_radar`: the five radar axes plus the
stability profile. -/
structure RadarOut where
  demandStrength : ℝ
  salaryGrowth : ℝ
  competitionAxis : ℝ
  volatilityAxis : ℝ
  automationRisk : ℝ
  status : String
  halfLifeHealth : ℝ
  volatilityHealth : ℝ
  riskHealth : ℝ
  stabilityScoreOut : ℝ
  confidenceScoreOut : ℝ
  trendOut : String

/-- `build_stability_radar` (the `risk` argument is the risk dictionary's
`risk_score`). -/
noncomputable def buildStabilityRadar (a : Analytics) (demand salary competition : List ℚ)
    (volatility : ℝ) (riskScore : ℝ) : RadarOut :=
  let stability := a.stabilityScore
  let confidence := a.confidenceScore
  let trend := a.trendDir
  let ds : ℝ := ((computeDemandStrength demand : ℚ) : ℝ)
  let sg : ℝ := computeSalaryGrowth salary
  let cs : ℝ := ((computeCompetitionScore competition : ℚ) : ℝ)
  let vs : ℝ := radarClamp volatility
  let ar : ℝ := computeAutomationRisk vs cs ds a.core.yearsFromPeak trend
  let hlHealth : ℝ := match a.core.yearsFromPeak with
    | none => 40
    | some v => max 0 (min 100 (100 - (v : ℝ) * 3.5))
  { demandStrength := radarClamp ds
    salaryGrowth := radarClamp sg
    competitionAxis := radarClamp cs
    volatilityAxis := radarClamp vs
    automationRisk := radarClamp ar
    status := if 65 ≤ stability ∧ riskScore < 45 then "stable" else "at_risk"
    halfLifeHealth := roundTo 4 hlHealth
    volatilityHealth := roundTo 4 (max 0 (min 100 (100 - vs)))
    riskHealth := roundTo 4 (max 0 (min 100 (100 - riskScore)))
    stabilityScoreOut := roundTo 4 stability
    confidenceScoreOut := roundTo 4 confidence
    trendOut := trend }

/-! ## forecast_service.build_forecast -/

/-- Output of `build_forecast`. -/
structure BuildForecastOut where
  windowYears : ℤ
  fitR2 : ℚ
  points : List (ℤ × ℚ)
deriving DecidableEq, Inhabited

/-- The window used by `build_forecast`: `min(max(recent_window, 5), len)`. -/
def buildForecastWindow (n : ℕ) (rw : ℤ) : ℤ := min (max rw 5) (n : ℤ)

/-- `build_forecast` from forecast_service.py (note the floor of 5 on the
window, absent from `_forecast_next_years` in half_life_service.py). -/
def buildForecast (demand : List ℚ) (startYear : ℤ) (horizon : ℕ) (rw : ℤ) :
    Except String BuildForecastOut :=
  if demand.length < 8 then .error "At least 8 data points are required for forecasting."
  else
    let years := (List.range demand.length).map (fun i : ℕ => (startYear : ℚ) + (i : ℚ))
    let w := buildForecastWindow demand.length rw
    let xt := pyTail years w
    let yt := pyTail demand w
    let r2 := if 1 < yt.length then r2Score yt (xt.map (olsPredict xt yt)) else 0
    let lastYear : ℤ := Int.floor (years.getLastD 0)
    let points := (List.range horizon).map (fun k : ℕ =>
      ((lastYear + 1 + (k : ℤ)), roundTo 6 (max (olsPredict xt yt ((lastYear + 1 + (k : ℤ) : ℤ) : ℚ)) 0)))
    .ok ⟨w, roundTo 8 r2, points⟩

/-! ## simulation_service -/

/-- Output of `simulate_scenario`. -/
structure ScenarioOut where
  halfLifeYear : Option ℚ
  yearsFromPeak : Option ℚ
  estimationMethod : String
  stabilityScore : ℝ
  trendDir : String
  confidenceScore : ℝ
  riskScore : ℝ
  riskLevel : String
  baseRiskScore : ℝ

/-- The shocked demand series of `simulate_scenario`: immediate proportional
drop times the elementwise automation pressure over the time gradient,
clamped at zero. -/
def simulatedDemand (demand : List ℚ) (automationIncreasePct demandDropPct : ℚ) : List ℚ :=
  let dropFactor : ℚ := max 0 (1 - demandDropPct / 100)
  let automationFactor : ℚ := max 0 (1 + automationIncreasePct / 100)
  let timeGradient := (List.range demand.length).map
    (fun j : ℕ => (j : ℚ) / ((demand.length : ℚ) - 1))
  let automationPressure := timeGradient.map
    (fun t => max (25 / 100) (1 - (automationFactor - 1) * (35 / 100) * t))
  List.zipWith (fun d p => max (d * dropFactor * p) 0) demand automationPressure

/-- The shocked competition series of `simulate_scenario`. -/
def simulatedCompetition (competition : List ℚ) (automationIncreasePct demandDropPct : ℚ) : List ℚ :=
  let automationFactor : ℚ := max 0 (1 + automationIncreasePct / 100)
  competition.map (fun c =>
    max (c * (1 + (automationFactor - 1) * (45 / 100) + max 0 demandDropPct / 200)) 0)

/-- `simulate_scenario`: validate shocks, build the shocked series, recompute
the half-life analytics (errors propagate) and the risk profile.  The
simulated salary series is computed by the source but feeds no output, so it
is omitted here. -/
noncomputable def simulateScenario (demand salary competition : List ℚ)
    (automationIncreasePct demandDropPct salaryShiftPct : ℚ) : Except String ScenarioOut :=
  if demand.length ≠ 40 then .error "demand_data must contain exactly 40 years."
  else if salary.length ≠ demand.length ∨ competition.length ≠ demand.length then
    .error "salary_data and competition_data must match demand_data length."
  else if automationIncreasePct < -50 ∨ 300 < automationIncreasePct then
    .error "automation_increase_pct must be between -50.0 and 300.0."
  else if demandDropPct < -95 ∨ 100 < demandDropPct then
    .error "demand_drop_pct must be between -95.0 and 100.0."
  else if salaryShiftPct < -95 ∨ 150 < salaryShiftPct then
    .error "salary_shift_pct must be between -95.0 and 150.0."
  else
    let simDemand := simulatedDemand demand automationIncreasePct demandDropPct
    let simCompetition := simulatedCompetition competition automationIncreasePct demandDropPct
    match computeSkillHalfLifeAnalytics simDemand defaultConfig with
    | .error e => .error e
    | .ok a =>
      let gap := evalVolatilityAndRisk simDemand simCompetition a
      let baseRisk := gap.riskScore
      let salaryPressure : ℚ := max 0 (-salaryShiftPct)
      let adjusted : ℝ := clampScore (baseRisk
        + 0.22 * ((max 0 automationIncreasePct : ℚ) : ℝ)
        + 0.28 * ((max 0 demandDropPct : ℚ) : ℝ)
        + 0.18 * ((salaryPressure : ℚ) : ℝ))
      let stab : ℝ := clampScore (a.stabilityScore
        - 0.30 * ((max 0 automationIncreasePct : ℚ) : ℝ)
        - 0.35 * ((max 0 demandDropPct : ℚ) : ℝ)
        + 0.15 * ((max 0 salaryShiftPct : ℚ) : ℝ))
      .ok { halfLifeYear := a.core.halfLifeYear
            yearsFromPeak := a.core.yearsFromPeak
            estimationMethod := a.core.estimationMethod
            stabilityScore := roundTo 4 stab
            trendDir := a.trendDir
            confidenceScore := a.confidenceScore
            riskScore := roundTo 4 adjusted
            riskLevel := if 70 ≤ adjusted then "high" else if 40 ≤ adjusted then "medium" else "low"
            baseRiskScore := roundTo 4 baseRisk }

/-! ## pivot_service -/

/-- ASCII lowercase of a character (Python `str.lower`; the catalog is ASCII). -/
def lowerChar (c : Char) : Char :=
  if 'A' ≤ c ∧ c ≤ 'Z' then Char.ofNat (c.toNat + 32) else c

/-- Python `str.lower()` on a string. -/
def strLower (s : String) : String := String.mk (s.data.map lowerChar)

/-- Python `str.strip()`: drop leading and trailing whitespace. -/
def strTrim (s : String) : String :=
  String.mk (((s.data.dropWhile Char.isWhitespace).reverse.dropWhile Char.isWhitespace).reverse)

/-- Character cleaning step of `_tokenize`: keep alphanumerics and
whitespace, replace everything else by a space. -/
def keepAlnumSpace (c : Char) : Char :=
  if c.isAlphanum ∨ c.isWhitespace then c else ' '

/-- Whitespace splitting (Python `str.split()`); tokens as character lists. -/
def splitWSAux : List Char → List Char → List (List Char)
  | [], acc => if acc = [] then [] else [acc.reverse]
  | c :: rest, acc =>
      if c.isWhitespace then
        (if acc = [] then splitWSAux rest [] else acc.reverse :: splitWSAux rest [])
      else splitWSAux rest (c :: acc)

/-- `_tokenize`: lowercase, strip non-alphanumerics, split on whitespace.
The Python set of tokens is modelled as a deduplicated list (only the
cardinalities of intersections and unions are consumed). -/
def tokenListOf (s : String) : List (List Char) :=
  (splitWSAux ((s.data.map lowerChar).map keepAlnumSpace) []).dedup

/-- `_jaccard_similarity` over tokenized labels. -/
def jaccardSimilarity (left right : String) : ℚ :=
  let lt := tokenListOf left
  let rt := tokenListOf right
  if lt = [] ∨ rt = [] then 0
  else
    let inter := (lt.filter (fun t => decide (t ∈ rt))).length
    let union := lt.length + rt.length - inter
    if union = 0 then 0 else (inter : ℚ) / (union : ℚ)

/-- `_normalize_score`: clamp to 0–100. -/
def normalizeScore (v : ℚ) : ℚ := clampScore v

/-- `SkillMarketProfile` from pivot_service.py. -/
structure SkillMarketProfile where
  skill : String
  avgSalary : ℚ
  demandStrength : ℚ
  volatility : ℚ
  automationRisk : ℚ
deriving DecidableEq, Inhabited

/-- `DEFAULT_MARKET_PROFILES`: the built-in 12-entry catalog. -/
def defaultMarketProfiles : List SkillMarketProfile :=
  [ ⟨"Python Backend", 132000, 84, 34, 28⟩
  , ⟨"Data Engineering", 141000, 81, 31, 24⟩
  , ⟨"Machine Learning Engineering", 156000, 78, 42, 30⟩
  , ⟨"Cloud DevOps", 148000, 79, 36, 26⟩
  , ⟨"Cybersecurity", 152000, 83, 29, 18⟩
  , ⟨"Product Analytics", 126000, 74, 33, 27⟩
  , ⟨"Data Science", 149000, 77, 43, 32⟩
  , ⟨"Site Reliability Engineering", 154000, 75, 37, 23⟩
  , ⟨"AI Application Engineering", 164000, 82, 48, 35⟩
  , ⟨"Frontend Engineering", 124000, 70, 41, 33⟩
  , ⟨"Platform Engineering", 158000, 73, 35, 22⟩
  , ⟨"MLOps", 161000, 76, 39, 27⟩ ]

/-- Scored candidate record built by `_score_candidate`, with the
`desirability` field added by the loop in `suggest_skill_pivots`. -/
structure Candidate where
  skill : String
  similarity : ℚ
  riskScore : ℚ
  salaryProjection : ℚ
  demandStrength : ℚ
  volatility : ℚ
  automationRisk : ℚ
  desirability : ℚ
deriving DecidableEq, Inhabited

/-- `_score_candidate` (desirability initialised to 0, filled in below). -/
def scoreCandidate (current : String) (p : SkillMarketProfile) : Candidate :=
  let sim := jaccardSimilarity current p.skill
  let marketRisk := (45 / 100) * p.automationRisk + (30 / 100) * p.volatility
    + (25 / 100) * (100 - p.demandStrength)
  let transitionRisk := (1 - sim) * 100
  let risk := normalizeScore ((55 / 100) * transitionRisk + (45 / 100) * marketRisk)
  { skill := p.skill
    similarity := sim
    riskScore := roundTo 4 risk
    salaryProjection := roundTo 2 p.avgSalary
    demandStrength := roundTo 4 p.demandStrength
    volatility := roundTo 4 p.volatility
    automationRisk := roundTo 4 p.automationRisk
    desirability := 0 }

/-- Desirability loop of `suggest_skill_pivots` (reads the rounded fields). -/
def withDesirability (c : Candidate) : Candidate :=
  { c with desirability := roundTo 4 ((45 / 100) * (100 - c.riskScore)
      + (30 / 100) * min 100 (c.salaryProjection / 2000) + (25 / 100) * c.demandStrength) }

/-- Sort key of `by_risk_asc`: ascending `(risk_score, -desirability)`. -/
def riskAscKey (a b : Candidate) : Prop :=
  a.riskScore < b.riskScore ∨ (a.riskScore = b.riskScore ∧ b.desirability ≤ a.desirability)

instance : DecidableRel riskAscKey := fun a b => by unfold riskAscKey; exact inferInstance

/-- Sort key of `by_risk_mid`: ascending distance of `risk_score` from 50. -/
def midKey (a b : Candidate) : Prop := |a.riskScore - 50| ≤ |b.riskScore - 50|

instance : DecidableRel midKey := fun a b => by unfold midKey; exact inferInstance

/-- Sort key of `by_upside_desc`: descending `(desirability, -risk_score)`
(Python `sorted(..., reverse=True)` keeps ties in original order, which is
what a stable sort with this relation produces). -/
def upsideDescKey (a b : Candidate) : Prop :=
  b.desirability < a.desirability ∨ (a.desirability = b.desirability ∧ a.riskScore ≤ b.riskScore)

instance : DecidableRel upsideDescKey := fun a b => by unfold upsideDescKey; exact inferInstance

/-- One formatted pivot of the response.  `learning_time_estimate` is the
string `f"{months} months"`; the integer month count is modelled. -/
structure PivotChoice where
  targetSkill : String
  riskScore : ℚ
  salaryProjection : ℚ
  learningMonths : ℤ
deriving DecidableEq, Inhabited

/-- `_estimate_learning_months`. -/
def estimateLearningMonths (sim targetVolatility aggressiveness : ℚ) : ℤ :=
  pyRound (max 1 (3 + (1 - sim) * 10 + (targetVolatility / 100) * (35 / 10) + aggressiveness * 4))

/-- `_format` inside `suggest_skill_pivots`. -/
def formatChoice (c : Candidate) (aggressiveness : ℚ) : PivotChoice :=
  { targetSkill := c.skill
    riskScore := roundTo 4 c.riskScore
    salaryProjection := roundTo 2 c.salaryProjection
    learningMonths := estimateLearningMonths c.similarity c.volatility aggressiveness }

/-- Full response of `suggest_skill_pivots`. -/
structure PivotsOut where
  currentSkill : String
  safePivot : PivotChoice
  moderatePivot : PivotChoice
  aggressivePivot : PivotChoice
deriving DecidableEq, Inhabited

/-- Stable ascending sort of the three chosen records by `risk_score`
(Python `sorted` on a three-element list). -/
def sortTriple (a b c : PivotChoice) : PivotChoice × PivotChoice × PivotChoice :=
  if b.riskScore ≤ c.riskScore then
    (if a.riskScore ≤ b.riskScore then (a, b, c)
     else if a.riskScore ≤ c.riskScore then (b, a, c)
     else (b, c, a))
  else
    (if a.riskScore ≤ c.riskScore then (a, c, b)
     else if a.riskScore ≤ b.riskScore then (c, a, b)
     else (c, b, a))

/-- Selection, formatting and the post-hoc monotone-risk guard of
`suggest_skill_pivots`, applied to the filtered candidate profiles. -/
def pivotsBody (current : String) (filtered : List SkillMarketProfile) : PivotsOut :=
  let scored := (filtered.map (scoreCandidate current)).map withDesirability
  let byRiskAsc := List.insertionSort riskAscKey scored
  let byRiskMid := List.insertionSort midKey scored
  let byUpsideDesc := List.insertionSort upsideDescKey scored
  let safeChoice := byRiskAsc.headI
  let moderateChoice := (byRiskMid.find? (fun c => decide (c.skill ≠ safeChoice.skill))).getD
    byRiskMid.headI
  let aggressiveChoice := (byUpsideDesc.find? (fun c => decide (c.skill ≠ safeChoice.skill
    ∧ c.skill ≠ moderateChoice.skill ∧ 45 ≤ c.riskScore))).getD byUpsideDesc.headI
  let fs := formatChoice safeChoice (2 / 10)
  let fm := formatChoice moderateChoice (55 / 100)
  let fa := formatChoice aggressiveChoice (9 / 10)
  if fs.riskScore ≤ fm.riskScore ∧ fm.riskScore ≤ fa.riskScore then
    { currentSkill := strTrim current, safePivot := fs, moderatePivot := fm, aggressivePivot := fa }
  else
    let t := sortTriple fs fm fa
    { currentSkill := strTrim current, safePivot := t.1, moderatePivot := t.2.1,
      aggressivePivot := t.2.2 }

/-- Case-insensitive exclusion of the current skill and the three-candidate
requirement of `suggest_skill_pivots`. -/
def suggestFrom (current : String) (resolved : List SkillMarketProfile) :
    Except String PivotsOut :=
  let filtered := resolved.filter (fun p => decide (strLower p.skill ≠ strLower current))
  if filtered.length < 3 then
    .error "At least 3 distinct target skills are required for pivot suggestions."
  else .ok (pivotsBody current filtered)

/-- `suggest_skill_pivots`.  Caller-supplied catalogs are modelled as typed
profile lists (the source also accepts equivalent dictionaries, which it
converts to the same dataclass before use). -/
def suggestSkillPivots (current : String) (profiles : Option (List SkillMarketProfile)) :
    Except String PivotsOut :=
  if strTrim current = "" then .error "current_skill must be a non-empty string."
  else
    match profiles with
    | none => suggestFrom current defaultMarketProfiles
    | some [] => .error "market_profiles must not be empty when provided."
    | some ps => suggestFrom current ps

/-! ## Concrete data for the `suggest_skill_pivots("Java Backend")` run -/

/-- Scored candidate for "Python Backend" (the only catalog entry sharing a
token with "Java Backend"). -/
def candPB : Candidate := ⟨"Python Backend", 1/3, 487267/10000, 132000, 84, 34, 28, 63873/1000⟩

/-- Scored candidate for "Data Engineering". -/
def candDE : Candidate := ⟨"Data Engineering", 0, 26473/400, 141000, 81, 31, 24, 566179/10000⟩

/-- Scored candidate for "Machine Learning Engineering". -/
def candMLE : Candidate := ⟨"Machine Learning Engineering", 0, 3461/50, 156000, 78, 42, 30, 56751/1000⟩

/-- Scored candidate for "Cloud DevOps". -/
def candCD : Candidate := ⟨"Cloud DevOps", 0, 5399/80, 148000, 79, 36, 26, 282903/5000⟩

/-- Scored candidate for "Cybersecurity". -/
def candCyb : Candidate := ⟨"Cybersecurity", 0, 25789/400, 152000, 83, 29, 18, 297687/5000⟩

/-- Scored candidate for "Product Analytics". -/
def candPA : Candidate := ⟨"Product Analytics", 0, 27139/400, 126000, 74, 33, 27, 259343/5000⟩

/-- Scored candidate for "Data Science". -/
def candDS : Candidate := ⟨"Data Science", 0, 27949/400, 149000, 77, 43, 32, 275787/5000⟩

/-- Scored candidate for "Site Reliability Engineering". -/
def candSRE : Candidate := ⟨"Site Reliability Engineering", 0, 13493/200, 154000, 75, 37, 23, 141227/2500⟩

/-- Scored candidate for "AI Application Engineering". -/
def candAIAE : Candidate := ⟨"AI Application Engineering", 0, 28237/400, 164000, 82, 48, 35, 291667/5000⟩

/-- Scored candidate for "Frontend Engineering". -/
def candFE : Candidate := ⟨"Frontend Engineering", 0, 28237/400, 124000, 70, 41, 33, 246667/5000⟩

/-- Scored candidate for "Platform Engineering". -/
def candPE : Candidate := ⟨"Platform Engineering", 0, 26887/400, 158000, 73, 35, 22, 567021/10000⟩

/-- Scored candidate for "MLOps". -/
def candMLOps : Candidate := ⟨"MLOps", 0, 27373/400, 161000, 76, 39, 27, 286777/5000⟩

/-- The twelve scored candidates for current skill "Java Backend", in catalog
order. -/
def javaBackendScored : List Candidate :=
  [candPB, candDE, candMLE, candCD, candCyb, candPA, candDS, candSRE, candAIAE,
   candFE, candPE, candMLOps]

/-- The full response of `suggest_skill_pivots("Java Backend")` on the default
catalog. -/
def javaBackendPivots : PivotsOut :=
  ⟨"Java Backend", ⟨"Python Backend", 487267/10000, 132000, 12⟩,
    ⟨"Cybersecurity", 25789/400, 152000, 16⟩,
    ⟨"AI Application Engineering", 28237/400, 164000, 18⟩⟩

/-! ## Observable sub-expressions of the half-life crossing scan -/

/-- The half-value threshold `peak_value / 2` of a demand series. -/
def halfValueOf (d : List ℚ) : ℚ := d.getD (argmaxIdx d) 0 / 2

/-- The post-peak (year, value) pairs scanned by the crossing interpolation. -/
def postPeakPairs (d : List ℚ) (cfg : HalfLifeConfig) : List (ℚ × ℚ) :=
  ((yearsOf cfg).drop (argmaxIdx d)).zip (d.drop (argmaxIdx d))

/-- The crossing condition of `_interpolate_crossing_year` at adjacent pair
`(i, i+1)`: earlier value ≥ threshold ≥ later value, values not numerically
close. -/
def crossQualifies (thr : ℚ) (zl : List (ℚ × ℚ)) (i : ℕ) : Prop :=
  i + 1 < zl.length ∧ thr ≤ (zl.getD i (0, 0)).2 ∧ (zl.getD (i + 1) (0, 0)).2 ≤ thr
    ∧ ¬ npIsClose (zl.getD i (0, 0)).2 (zl.getD (i + 1) (0, 0)).2

/-- The linear interpolation formula of `_interpolate_crossing_year` at
adjacent pair `(i, i+1)`. -/
def crossInterpAt (thr : ℚ) (zl : List (ℚ × ℚ)) (i : ℕ) : ℚ :=
  (zl.getD i (0, 0)).1 + (thr - (zl.getD i (0, 0)).2)
    * ((zl.getD (i + 1) (0, 0)).1 - (zl.getD i (0, 0)).1)
    / ((zl.getD (i + 1) (0, 0)).2 - (zl.getD i (0, 0)).2)

/-- A 40-value series whose 10th and 90th percentiles are unequal but
numerically close (band 1e-5 against tolerance 1e-8 + 1e-5·10). -/
def c8Series : List ℚ := List.replicate 36 10 ++ List.replicate 4 (10 + 1 / 10000)

/-! ## Concrete example series and evaluation helpers -/

/-- The spec's worked example: linear decline from 100 to 22 over 40 years. -/
def linSeries : List ℚ := (List.range 40).map (fun i : ℕ => (100 : ℚ) - 2 * (i : ℚ))

/-- Tail of `linSeries` below its leading element. -/
def linTail : List ℚ := (List.range 39).map (fun i : ℕ => (98 : ℚ) - 2 * (i : ℚ))

/-- A default-like configuration whose recent window is 3 (below the putative
floor of 5). -/
def cfgWindow3 : HalfLifeConfig := ⟨40, 1985, 3, 5⟩

/-- Witness series for C9: not constant, but all elements allclose to the
first (the perturbation 1e-9 is below the tolerance 1e-8 + 1e-5·|1 + 1e-9|). -/
def c9Witness : List ℚ := (1 + 1 / 1000000000) :: List.replicate 39 1

/-! ## Generic lemmas about rounding and clamping -/

theorem floor_le_pyRound {α : Type} [LinearOrderedField α] [FloorRing α] (x : α) :
    Int.floor x ≤ pyRound x := by
  unfold pyRound
  split_ifs with h1 h2
  · exact le_refl _
  · omega
  · exact Int.floor_le_floor (by linarith)

theorem pyRound_le_ceil {α : Type} [LinearOrderedField α] [FloorRing α] (x : α) :
    pyRound x ≤ Int.ceil x := by
  unfold pyRound
  split_ifs with h1 h2
  · exact Int.floor_le_ceil x
  · have hx : ((Int.floor x : ℤ) : α) < x := by
      have h0 : (0 : α) < 1 / 2 := by norm_num
      linarith [h1]
    have hc : ((Int.floor x : ℤ) : α) < ((Int.ceil x : ℤ) : α) := lt_of_lt_of_le hx (Int.le_ceil x)
    have : Int.floor x < Int.ceil x := by exact_mod_cast hc
    omega
  · have : x + 1 / 2 < ((Int.ceil x + 1 : ℤ) : α) := by push_cast; linarith [Int.le_ceil x]
    have h2 := Int.floor_lt.mpr this
    omega

theorem le_roundTo_of_int_le {α : Type} [LinearOrderedField α] [FloorRing α]
    (n : ℕ) {x : α} {m : ℤ} (h : (m : α) ≤ x) : (m : α) ≤ roundTo n x := by
  unfold roundTo
  have h10 : (0 : α) < 10 ^ n := by positivity
  rw [le_div_iff₀ h10]
  have h1 : (m * 10 ^ n : ℤ) ≤ Int.floor (x * 10 ^ n) := by
    apply Int.le_floor.mpr
    push_cast
    exact mul_le_mul_of_nonneg_right h (le_of_lt h10)
  have h2 := floor_le_pyRound (x * 10 ^ n)
  have h3 : ((m * 10 ^ n : ℤ) : α) ≤ ((pyRound (x * 10 ^ n) : ℤ) : α) := by
    exact_mod_cast le_trans h1 h2
  calc (m : α) * 10 ^ n = ((m * 10 ^ n : ℤ) : α) := by push_cast; ring
    _ ≤ _ := h3

theorem roundTo_le_of_le_int {α : Type} [LinearOrderedField α] [FloorRing α]
    (n : ℕ) {x : α} {m : ℤ} (h : x ≤ (m : α)) : roundTo n x ≤ (m : α) := by
  unfold roundTo
  have h10 : (0 : α) < 10 ^ n := by positivity
  rw [div_le_iff₀ h10]
  have h1 : Int.ceil (x * 10 ^ n) ≤ (m * 10 ^ n : ℤ) := by
    apply Int.ceil_le.mpr
    push_cast
    exact mul_le_mul_of_nonneg_right h (le_of_lt h10)
  have h2 := pyRound_le_ceil (x * 10 ^ n)
  have h3 : ((pyRound (x * 10 ^ n) : ℤ) : α) ≤ ((m * 10 ^ n : ℤ) : α) := by
    exact_mod_cast le_trans h2 h1
  calc ((pyRound (x * 10 ^ n) : ℤ) : α) ≤ ((m * 10 ^ n : ℤ) : α) := h3
    _ = (m : α) * 10 ^ n := by push_cast; ring

theorem roundTo_nonneg {α : Type} [LinearOrderedField α] [FloorRing α]
    (n : ℕ) {x : α} (h : 0 ≤ x) : 0 ≤ roundTo n x := by
  have := le_roundTo_of_int_le n (m := 0) (x := x) (by exact_mod_cast h)
  simpa using this

theorem roundTo_le_hundred {α : Type} [LinearOrderedField α] [FloorRing α]
    (n : ℕ) {x : α} (h : x ≤ 100) : roundTo n x ≤ 100 := by
  have := roundTo_le_of_le_int n (m := 100) (x := x) (by exact_mod_cast h)
  simpa using this

theorem clampScore_nonneg {α : Type} [LinearOrderedField α] (x : α) : 0 ≤ clampScore x :=
  le_max_left 0 _

theorem clampScore_le_hundred {α : Type} [LinearOrderedField α] (x : α) : clampScore x ≤ 100 :=
  max_le (by norm_num) (min_le_left _ _)

theorem roundClamp_bounds {α : Type} [LinearOrderedField α] [FloorRing α] (n : ℕ) (x : α) :
    0 ≤ roundTo n (clampScore x) ∧ roundTo n (clampScore x) ≤ 100 :=
  ⟨roundTo_nonneg n (clampScore_nonneg x), roundTo_le_hundred n (clampScore_le_hundred x)⟩

theorem radarClamp_bounds {α : Type} [LinearOrderedField α] [FloorRing α] (x : α) :
    0 ≤ radarClamp x ∧ radarClamp x ≤ 100 := roundClamp_bounds 4 x

theorem pyRound_intCast {α : Type} [LinearOrderedField α] [FloorRing α] (m : ℤ) :
    pyRound ((m : ℤ) : α) = m := by
  unfold pyRound
  rw [Int.floor_intCast]
  have hfalse : ¬ ((m : α) - (m : α) = 1 / 2) := by rw [sub_self]; norm_num
  rw [if_neg hfalse]
  have hcomm : ((m : ℤ) : α) + 1 / 2 = 1 / 2 + ((m : ℤ) : α) := by ring
  rw [hcomm, Int.floor_add_int]
  norm_num

theorem roundTo_intCast {α : Type} [LinearOrderedField α] [FloorRing α] (n : ℕ) (m : ℤ) :
    roundTo n ((m : ℤ) : α) = ((m : ℤ) : α) := by
  unfold roundTo
  have hx : ((m : ℤ) : α) * 10 ^ n = ((m * 10 ^ n : ℤ) : α) := by push_cast; ring
  rw [hx, pyRound_intCast]
  have h10 : (10 : α) ^ n ≠ 0 := by positivity
  push_cast
  field_simp

/-! ## Structural lemmas for the half-life pipeline -/

theorem validateInput_ok_val {d s : List ℚ} {cfg : HalfLifeConfig}
    (h : validateInput d cfg = .ok s) : s = d := by
  unfold validateInput at h
  split_ifs at h
  simp_all

theorem validateInput_ok_iff (d : List ℚ) (cfg : HalfLifeConfig) :
    validateInput d cfg = .ok d ↔
      d.length = cfg.required_years ∧ (¬ ∃ x ∈ d, x < 0)
        ∧ ¬ (∀ x ∈ d, npIsClose x d.headI) := by
  unfold validateInput
  split_ifs with h1 h2 h3 <;> simp_all

theorem computeCore_ok_iff (d : List ℚ) (cfg : HalfLifeConfig) :
    exOk (computeCore d cfg) = true ↔
      (validateInput d cfg = .ok d ∧ (argmaxIdx d : ℤ) < (d.length : ℤ) - 2) := by
  unfold computeCore
  cases hv : validateInput d cfg with
  | error e => simp [exOk, hv]
  | ok s =>
      have hs : s = d := validateInput_ok_val hv
      rw [hs] at hv
      rw [hs]
      dsimp only
      by_cases hg : ((d.length : ℤ) - 2 ≤ (argmaxIdx d : ℤ))
      · rw [if_pos hg]
        simp only [exOk]
        constructor
        · intro hfa; exact absurd hfa (by simp)
        · rintro ⟨_, hlt⟩; exact absurd hlt (by omega)
      · rw [if_neg hg]
        simp only [exOk]
        constructor
        · intro _; exact ⟨trivial, by omega⟩
        · intro _; trivial

theorem coreD_eq_body {d : List ℚ} {cfg : HalfLifeConfig}
    (h : exOk (computeCore d cfg) = true) : coreD d cfg = coreBody d cfg := by
  rcases (computeCore_ok_iff d cfg).mp h with ⟨hv, hg⟩
  have hg' : ¬ ((d.length : ℤ) - 2 ≤ (argmaxIdx d : ℤ)) := by omega
  simp [coreD, computeCore, hv, hg', exGet]

theorem length_of_core_ok {d : List ℚ} {cfg : HalfLifeConfig}
    (h : exOk (computeCore d cfg) = true) : d.length = cfg.required_years := by
  rcases (computeCore_ok_iff d cfg).mp h with ⟨hv, _⟩
  exact ((validateInput_ok_iff d cfg).mp hv).1

theorem linSeries_length : linSeries.length = 40 := by
  rw [linSeries, List.length_map, List.length_range]

theorem linSeries_cons : linSeries = 100 :: linTail := by
  rw [linSeries, linTail, show (40 : ℕ) = 39 + 1 from rfl, List.range_succ_eq_map]
  rw [List.map_cons, List.map_map]
  congr 1
  · push_cast
    ring
  · apply List.map_congr_left
    intro i _
    simp only [Function.comp_apply]
    push_cast
    ring

theorem linSeries_mem_bounds : ∀ x ∈ linSeries, 22 ≤ x ∧ x ≤ 100 := by
  intro x hx
  rw [linSeries] at hx
  obtain ⟨i, hi, rfl⟩ := List.mem_map.mp hx
  rw [List.mem_range] at hi
  have h1 : (i : ℚ) ≤ 39 := by exact_mod_cast Nat.le_of_lt_succ hi
  have h2 : (0 : ℚ) ≤ (i : ℚ) := Nat.cast_nonneg i
  constructor <;> linarith

theorem argmaxFrom_of_le (i b : ℕ) (bv : ℚ) (l : List ℚ) (h : ∀ x ∈ l, x ≤ bv) :
    argmaxFrom i b bv l = b := by
  induction l generalizing i with
  | nil => rfl
  | cons x rest ih =>
      rw [argmaxFrom, if_neg (not_lt.mpr (h x (List.mem_cons_self x rest)))]
      exact ih (i + 1) fun y hy => h y (List.mem_cons_of_mem x hy)

theorem linSeries_argmax : argmaxIdx linSeries = 0 := by
  rw [linSeries_cons, argmaxIdx]
  apply argmaxFrom_of_le
  intro x hx
  rw [linTail] at hx
  obtain ⟨i, _, rfl⟩ := List.mem_map.mp hx
  have h2 : (0 : ℚ) ≤ (i : ℚ) := Nat.cast_nonneg i
  linarith

theorem linSeries_headI : linSeries.headI = 100 := by rw [linSeries_cons]; rfl

theorem linSeries_valid (cfg : HalfLifeConfig) (h : cfg.required_years = 40) :
    validateInput linSeries cfg = .ok linSeries := by
  refine (validateInput_ok_iff _ _).mpr ⟨by rw [linSeries_length, h], ?_, ?_⟩
  · rintro ⟨x, hx, hlt⟩
    have h22 := (linSeries_mem_bounds x hx).1
    linarith
  · intro hall
    have h98 : (98 : ℚ) ∈ linSeries := by
      rw [linSeries]
      apply List.mem_map.mpr
      refine ⟨(1 : ℕ), List.mem_range.mpr (by norm_num), ?_⟩
      norm_num
    have hcl := hall 98 h98
    rw [linSeries_headI] at hcl
    unfold npIsClose at hcl
    have habs : |(98 : ℚ) - 100| = 2 := by
      rw [show (98 : ℚ) - 100 = -2 by norm_num, abs_neg, abs_of_nonneg (by norm_num : (0:ℚ) ≤ 2)]
    rw [habs, abs_of_nonneg (by norm_num : (0:ℚ) ≤ 100)] at hcl
    norm_num at hcl

theorem linSeries_core_ok (cfg : HalfLifeConfig) (h : cfg.required_years = 40) :
    exOk (computeCore linSeries cfg) = true := by
  rw [computeCore_ok_iff]
  refine ⟨linSeries_valid cfg h, ?_⟩
  rw [linSeries_length, linSeries_argmax]
  norm_num

/-! ## Claim C9 -/

/-- C9: the zero-variance check of `_validate_input` rejects every 40-value
non-negative series whose elements are all within numpy's `allclose`
tolerance of the first element, raising the no-variation error — even when
the values are not all equal. -/
theorem claimC9_allclose_rejected (d : List ℚ) (h40 : d.length = 40)
    (hneg : ∀ x ∈ d, ¬ x < 0)
    (hclose : ∀ x ∈ d, npIsClose x d.headI) :
    validateInput d defaultConfig =
      .error "Demand data has no variation; half-life analytics is not meaningful." := by
  have h1 : ¬ (d.length ≠ defaultConfig.required_years) := by
    simp [defaultConfig, h40]
  have h2 : ¬ (∃ x ∈ d, x < 0) := by
    push_neg
    intro x hx
    exact not_lt.mp (hneg x hx)
  unfold validateInput
  rw [if_neg h1, if_neg h2, if_pos hclose]

theorem claimC9_witness :
    c9Witness.length = 40
    ∧ (∀ x ∈ c9Witness, ¬ x < 0)
    ∧ (∀ x ∈ c9Witness, npIsClose x c9Witness.headI)
    ∧ (¬ ∀ x ∈ c9Witness, x = c9Witness.headI)
    ∧ validateInput c9Witness defaultConfig =
        .error "Demand data has no variation; half-life analytics is not meaningful." := by
  have hlen : c9Witness.length = 40 := by simp [c9Witness]
  have hhead : c9Witness.headI = 1 + 1 / 1000000000 := by simp [c9Witness]
  have hmem : ∀ x ∈ c9Witness, x = 1 + 1 / 1000000000 ∨ x = 1 := by
    intro x hx
    rcases List.mem_cons.mp hx with h | h
    · exact Or.inl h
    · exact Or.inr (List.eq_of_mem_replicate h)
  have hneg : ∀ x ∈ c9Witness, ¬ x < 0 := by
    intro x hx
    rcases hmem x hx with h | h <;> rw [h] <;> norm_num
  have hclose : ∀ x ∈ c9Witness, npIsClose x c9Witness.headI := by
    intro x hx
    rw [hhead]
    unfold npIsClose
    rw [abs_of_nonneg (by norm_num : (0:ℚ) ≤ 1 + 1 / 1000000000)]
    rcases hmem x hx with h | h <;> rw [h]
    · rw [sub_self, abs_zero]
      positivity
    · rw [show (1 : ℚ) - (1 + 1 / 1000000000) = -(1 / 1000000000) by ring, abs_neg,
        abs_of_nonneg (by norm_num : (0:ℚ) ≤ 1 / 1000000000)]
      norm_num
  refine ⟨hlen, hneg, hclose, ?_, claimC9_allclose_rejected c9Witness hlen hneg hclose⟩
  intro hall
  have h1mem : (1 : ℚ) ∈ c9Witness :=
    List.mem_cons_of_mem _ (List.mem_replicate.mpr ⟨by norm_num, rfl⟩)
  have h1 := hall 1 h1mem
  rw [hhead] at h1
  norm_num at h1

/-! ## Claim C2 -/

/-- The length of the recent-window slice actually fitted by
`_forecast_next_years` is `min(recent_window, len)` — with no floor of 5. -/
theorem recentSlice_length (d : List ℚ) (rw : ℤ) (hrw : 1 ≤ rw) :
    (recentSlice d rw).length = min rw.toNat d.length := by
  unfold recentSlice pyTail
  by_cases h0 : d.length = 0
  · have hmin : min rw ((d.length : ℕ) : ℤ) = 0 := by omega
    rw [hmin]
    simp [h0]
  · have hpos : 0 < min rw ((d.length : ℕ) : ℤ) := by omega
    rw [if_pos hpos, List.length_drop]
    omega

/-- C2 (amended): for every configuration with `recent_window ≥ 1` and every
demand series accepted by `compute_skill_half_life_analytics`, the forecast
step fits its OLS regression on exactly the last
`min(recent_window, required_years)` points — the effective window is NOT
floored at 5; the floor `min(max(recent_window, 5), len)` belongs to
`forecast_service.build_forecast` only. -/
theorem claimC2_window (cfg : HalfLifeConfig) (d : List ℚ)
    (hrw : 1 ≤ cfg.recent_window)
    (hok : exOk (computeCore d cfg) = true) :
    (recentSlice d cfg.recent_window).length = min cfg.recent_window.toNat cfg.required_years
    ∧ (coreD d cfg).windowYears = min cfg.recent_window (cfg.required_years : ℤ)
    ∧ buildForecastWindow cfg.required_years cfg.recent_window
        = min (max cfg.recent_window 5) (cfg.required_years : ℤ) := by
  have hlen : d.length = cfg.required_years := length_of_core_ok hok
  refine ⟨?_, ?_, rfl⟩
  · rw [recentSlice_length d cfg.recent_window hrw, hlen]
  · rw [coreD_eq_body hok]
    simp only [coreBody]
    rw [hlen]

theorem claimC2_window_witness :
    (1 ≤ cfgWindow3.recent_window ∧ exOk (computeCore linSeries cfgWindow3) = true)
    ∧ ((recentSlice linSeries cfgWindow3.recent_window).length
        = min cfgWindow3.recent_window.toNat cfgWindow3.required_years
      ∧ (coreD linSeries cfgWindow3).windowYears
          = min cfgWindow3.recent_window (cfgWindow3.required_years : ℤ)
      ∧ buildForecastWindow cfgWindow3.required_years cfgWindow3.recent_window
          = min (max cfgWindow3.recent_window 5) (cfgWindow3.required_years : ℤ)) :=
  ⟨⟨by norm_num [cfgWindow3], linSeries_core_ok cfgWindow3 rfl⟩,
   claimC2_window cfgWindow3 linSeries (by norm_num [cfgWindow3])
     (linSeries_core_ok cfgWindow3 rfl)⟩

/-- C2 (counterexample to the claim as stated): with `recent_window = 3` the
pipeline accepts the input but fits on 3 points, not
`min(max(recent_window, 5), 40) = 5`. -/
theorem claimC2_counterexample :
    exOk (computeCore linSeries cfgWindow3) = true
    ∧ (recentSlice linSeries cfgWindow3.recent_window).length = 3
    ∧ (coreD linSeries cfgWindow3).windowYears = 3
    ∧ min (max cfgWindow3.recent_window 5) ((cfgWindow3.required_years : ℕ) : ℤ) = 5
    ∧ (recentSlice linSeries cfgWindow3.recent_window).length ≠ 5 := by
  have hok := linSeries_core_ok cfgWindow3 rfl
  have hsl : (recentSlice linSeries cfgWindow3.recent_window).length = 3 := by
    rw [show cfgWindow3.recent_window = 3 from rfl, recentSlice_length linSeries 3 (by norm_num),
      linSeries_length]
    rfl
  refine ⟨hok, hsl, ?_, by norm_num [cfgWindow3], by rw [hsl]; norm_num⟩
  rw [coreD_eq_body hok]
  simp only [coreBody]
  rw [linSeries_length]
  rfl

/-! ## Claim C3 -/

theorem sortTriple_mono (a b c : PivotChoice) :
    (sortTriple a b c).1.riskScore ≤ (sortTriple a b c).2.1.riskScore
    ∧ (sortTriple a b c).2.1.riskScore ≤ (sortTriple a b c).2.2.riskScore := by
  unfold sortTriple
  split_ifs with h1 h2 h3 h4 h5 <;> dsimp only <;> constructor <;> linarith

theorem pivotsBody_mono (cur : String) (l : List SkillMarketProfile) :
    (pivotsBody cur l).safePivot.riskScore ≤ (pivotsBody cur l).moderatePivot.riskScore
    ∧ (pivotsBody cur l).moderatePivot.riskScore ≤ (pivotsBody cur l).aggressivePivot.riskScore := by
  unfold pivotsBody
  dsimp only
  split_ifs with h
  · exact h
  · exact sortTriple_mono _ _ _

theorem suggestFrom_mono (cur : String) (resolved : List SkillMarketProfile)
    (hok : exOk (suggestFrom cur resolved) = true) :
    (exGet (suggestFrom cur resolved)).safePivot.riskScore
      ≤ (exGet (suggestFrom cur resolved)).moderatePivot.riskScore
    ∧ (exGet (suggestFrom cur resolved)).moderatePivot.riskScore
      ≤ (exGet (suggestFrom cur resolved)).aggressivePivot.riskScore := by
  unfold suggestFrom at hok ⊢
  dsimp only at hok ⊢
  split_ifs at hok ⊢ with h
  · exact absurd hok (by simp [exOk])
  · simpa only [exGet] using pivotsBody_mono cur _

/-- C3: whenever `suggest_skill_pivots` succeeds (non-empty skill and at
least three candidates after case-insensitive exclusion), the returned
pivots satisfy `safe.risk_score ≤ moderate.risk_score ≤
aggressive.risk_score` — the post-hoc guard re-sorts the chosen triple
whenever the heuristic selection violates the order. -/
theorem claimC3_risk_monotone (cur : String) (ps : Option (List SkillMarketProfile))
    (hok : exOk (suggestSkillPivots cur ps) = true) :
    (exGet (suggestSkillPivots cur ps)).safePivot.riskScore
      ≤ (exGet (suggestSkillPivots cur ps)).moderatePivot.riskScore
    ∧ (exGet (suggestSkillPivots cur ps)).moderatePivot.riskScore
      ≤ (exGet (suggestSkillPivots cur ps)).aggressivePivot.riskScore := by
  unfold suggestSkillPivots at hok ⊢
  split_ifs at hok ⊢ with h1
  · exact absurd hok (by simp [exOk])
  · cases ps with
    | none => exact suggestFrom_mono cur defaultMarketProfiles hok
    | some l =>
        cases l with
        | nil => exact absurd hok (by simp [exOk])
        | cons p rest => exact suggestFrom_mono cur (p :: rest) hok

theorem claimC3_witness :
    exOk (suggestSkillPivots "Java Backend" none) = true
    ∧ ((exGet (suggestSkillPivots "Java Backend" none)).safePivot.riskScore
        ≤ (exGet (suggestSkillPivots "Java Backend" none)).moderatePivot.riskScore
      ∧ (exGet (suggestSkillPivots "Java Backend" none)).moderatePivot.riskScore
        ≤ (exGet (suggestSkillPivots "Java Backend" none)).aggressivePivot.riskScore) := by
  have hok : exOk (suggestSkillPivots "Java Backend" none) = true := by
    rw [suggestSkillPivots, if_neg (show ¬(strTrim "Java Backend" = "") from by decide)]
    show exOk (suggestFrom "Java Backend" defaultMarketProfiles) = true
    rw [suggestFrom]
    rw [if_neg (show ¬((defaultMarketProfiles.filter
      (fun p => decide (strLower p.skill ≠ strLower "Java Backend"))).length < 3) from by decide)]
    rfl
  exact ⟨hok, claimC3_risk_monotone "Java Backend" none hok⟩

/-! ## Claim C6 -/

theorem javaBackendScored_eval :
    (defaultMarketProfiles.map (scoreCandidate "Java Backend")).map withDesirability
      = javaBackendScored := by
  have j1 : jaccardSimilarity "Java Backend" "Python Backend" = 1/3 := by
    rw [show jaccardSimilarity "Java Backend" "Python Backend" = ((1:ℕ):ℚ)/((3:ℕ):ℚ) from rfl]
    norm_num
  have j2 : jaccardSimilarity "Java Backend" "Data Engineering" = 0 := by
    rw [show jaccardSimilarity "Java Backend" "Data Engineering" = ((0:ℕ):ℚ)/((4:ℕ):ℚ) from rfl]
    norm_num
  have j3 : jaccardSimilarity "Java Backend" "Machine Learning Engineering" = 0 := by
    rw [show jaccardSimilarity "Java Backend" "Machine Learning Engineering"
      = ((0:ℕ):ℚ)/((5:ℕ):ℚ) from rfl]
    norm_num
  have j4 : jaccardSimilarity "Java Backend" "Cloud DevOps" = 0 := by
    rw [show jaccardSimilarity "Java Backend" "Cloud DevOps" = ((0:ℕ):ℚ)/((4:ℕ):ℚ) from rfl]
    norm_num
  have j5 : jaccardSimilarity "Java Backend" "Cybersecurity" = 0 := by
    rw [show jaccardSimilarity "Java Backend" "Cybersecurity" = ((0:ℕ):ℚ)/((3:ℕ):ℚ) from rfl]
    norm_num
  have j6 : jaccardSimilarity "Java Backend" "Product Analytics" = 0 := by
    rw [show jaccardSimilarity "Java Backend" "Product Analytics" = ((0:ℕ):ℚ)/((4:ℕ):ℚ) from rfl]
    norm_num
  have j7 : jaccardSimilarity "Java Backend" "Data Science" = 0 := by
    rw [show jaccardSimilarity "Java Backend" "Data Science" = ((0:ℕ):ℚ)/((4:ℕ):ℚ) from rfl]
    norm_num
  have j8 : jaccardSimilarity "Java Backend" "Site Reliability Engineering" = 0 := by
    rw [show jaccardSimilarity "Java Backend" "Site Reliability Engineering"
      = ((0:ℕ):ℚ)/((5:ℕ):ℚ) from rfl]
    norm_num
  have j9 : jaccardSimilarity "Java Backend" "AI Application Engineering" = 0 := by
    rw [show jaccardSimilarity "Java Backend" "AI Application Engineering"
      = ((0:ℕ):ℚ)/((5:ℕ):ℚ) from rfl]
    norm_num
  have j10 : jaccardSimilarity "Java Backend" "Frontend Engineering" = 0 := by
    rw [show jaccardSimilarity "Java Backend" "Frontend Engineering"
      = ((0:ℕ):ℚ)/((4:ℕ):ℚ) from rfl]
    norm_num
  have j11 : jaccardSimilarity "Java Backend" "Platform Engineering" = 0 := by
    rw [show jaccardSimilarity "Java Backend" "Platform Engineering"
      = ((0:ℕ):ℚ)/((4:ℕ):ℚ) from rfl]
    norm_num
  have j12 : jaccardSimilarity "Java Backend" "MLOps" = 0 := by
    rw [show jaccardSimilarity "Java Backend" "MLOps" = ((0:ℕ):ℚ)/((3:ℕ):ℚ) from rfl]
    norm_num
  simp only [defaultMarketProfiles, List.map_cons, List.map_nil]
  simp only [scoreCandidate, withDesirability, j1, j2, j3, j4, j5, j6, j7, j8, j9, j10, j11, j12]
  simp only [javaBackendScored, candPB, candDE, candMLE, candCD, candCyb, candPA, candDS,
    candSRE, candAIAE, candFE, candPE, candMLOps]
  norm_num [normalizeScore, clampScore, roundTo, pyRound, min_def, max_def, Candidate.mk.injEq]

theorem javaBackendAsc_eval :
    List.insertionSort riskAscKey javaBackendScored
      = [candPB, candCyb, candDE, candPE, candSRE, candCD, candPA, candMLOps, candMLE,
         candDS, candAIAE, candFE] := by
  simp only [javaBackendScored, candPB, candDE, candMLE, candCD, candCyb, candPA, candDS,
    candSRE, candAIAE, candFE, candPE, candMLOps]
  norm_num [List.insertionSort, List.orderedInsert, riskAscKey, Candidate.mk.injEq]

theorem javaBackendMid_eval :
    List.insertionSort midKey javaBackendScored
      = [candPB, candCyb, candDE, candPE, candSRE, candCD, candPA, candMLOps, candMLE,
         candDS, candAIAE, candFE] := by
  simp only [javaBackendScored, candPB, candDE, candMLE, candCD, candCyb, candPA, candDS,
    candSRE, candAIAE, candFE, candPE, candMLOps]
  norm_num [List.insertionSort, List.orderedInsert, midKey, Candidate.mk.injEq, abs_of_nonneg]

theorem javaBackendDesc_eval :
    List.insertionSort upsideDescKey javaBackendScored
      = [candPB, candCyb, candAIAE, candMLOps, candMLE, candPE, candDE, candCD, candSRE,
         candDS, candPA, candFE] := by
  simp only [javaBackendScored, candPB, candDE, candMLE, candCD, candCyb, candPA, candDS,
    candSRE, candAIAE, candFE, candPE, candMLOps]
  norm_num [List.insertionSort, List.orderedInsert, upsideDescKey, Candidate.mk.injEq]

theorem javaBackendAggressive_eval :
    ([candPB, candCyb, candAIAE, candMLOps, candMLE, candPE, candDE, candCD, candSRE,
      candDS, candPA, candFE].find? (fun c => decide (c.skill ≠ candPB.skill
        ∧ c.skill ≠ candCyb.skill ∧ 45 ≤ c.riskScore))) = some candAIAE := by
  rw [List.find?_cons_of_neg, List.find?_cons_of_neg, List.find?_cons_of_pos]
  · exact decide_eq_true ⟨by decide, by decide, by norm_num [candAIAE]⟩
  · exact fun hdec => absurd rfl (of_decide_eq_true hdec).2.1
  · exact fun hdec => absurd rfl (of_decide_eq_true hdec).1

theorem javaBackendPivots_eval :
    suggestSkillPivots "Java Backend" none = .ok javaBackendPivots := by
  rw [suggestSkillPivots, if_neg (show ¬(strTrim "Java Backend" = "") from by decide)]
  show suggestFrom "Java Backend" defaultMarketProfiles = _
  rw [suggestFrom]
  rw [show defaultMarketProfiles.filter
      (fun p => decide (strLower p.skill ≠ strLower "Java Backend")) = defaultMarketProfiles from rfl]
  rw [if_neg (show ¬(defaultMarketProfiles.length < 3) from by decide)]
  congr 1
  rw [pivotsBody]
  dsimp only
  rw [javaBackendScored_eval, javaBackendAsc_eval, javaBackendMid_eval, javaBackendDesc_eval]
  rw [show ([candPB, candCyb, candDE, candPE, candSRE, candCD, candPA, candMLOps, candMLE,
    candDS, candAIAE, candFE] : List Candidate).headI = candPB from rfl]
  rw [show (([candPB, candCyb, candDE, candPE, candSRE, candCD, candPA, candMLOps, candMLE,
      candDS, candAIAE, candFE] : List Candidate).find?
      (fun c => decide (c.skill ≠ candPB.skill))).getD candPB = candCyb from rfl]
  rw [javaBackendAggressive_eval]
  rw [Option.getD_some]
  have hfs : formatChoice candPB (2 / 10) = ⟨"Python Backend", 487267/10000, 132000, 12⟩ := by
    simp only [formatChoice, estimateLearningMonths, candPB, PivotChoice.mk.injEq]
    norm_num [roundTo, pyRound, min_def, max_def]
  have hfm : formatChoice candCyb (55 / 100) = ⟨"Cybersecurity", 25789/400, 152000, 16⟩ := by
    simp only [formatChoice, estimateLearningMonths, candCyb, PivotChoice.mk.injEq]
    norm_num [roundTo, pyRound, min_def, max_def]
  have hfa : formatChoice candAIAE (9 / 10)
      = ⟨"AI Application Engineering", 28237/400, 164000, 18⟩ := by
    simp only [formatChoice, estimateLearningMonths, candAIAE, PivotChoice.mk.injEq]
    norm_num [roundTo, pyRound, min_def, max_def]
  rw [hfs, hfm, hfa]
  rw [if_pos (by norm_num : ((487267 : ℚ)/10000 ≤ 25789/400 ∧ (25789 : ℚ)/400 ≤ 28237/400))]
  rfl

/-- C6: `suggest_skill_pivots("Java Backend")` on the default catalog
returns three pairwise-distinct target skills, none equal to
"Java Backend", with monotone risk scores across the safe, moderate and
aggressive tiers. -/
theorem claimC6_java_backend :
    (exGet (suggestSkillPivots "Java Backend" none)).safePivot.targetSkill
        ≠ (exGet (suggestSkillPivots "Java Backend" none)).moderatePivot.targetSkill
    ∧ (exGet (suggestSkillPivots "Java Backend" none)).safePivot.targetSkill
        ≠ (exGet (suggestSkillPivots "Java Backend" none)).aggressivePivot.targetSkill
    ∧ (exGet (suggestSkillPivots "Java Backend" none)).moderatePivot.targetSkill
        ≠ (exGet (suggestSkillPivots "Java Backend" none)).aggressivePivot.targetSkill
    ∧ (exGet (suggestSkillPivots "Java Backend" none)).safePivot.targetSkill ≠ "Java Backend"
    ∧ (exGet (suggestSkillPivots "Java Backend" none)).moderatePivot.targetSkill ≠ "Java Backend"
    ∧ (exGet (suggestSkillPivots "Java Backend" none)).aggressivePivot.targetSkill ≠ "Java Backend"
    ∧ (exGet (suggestSkillPivots "Java Backend" none)).safePivot.riskScore
        ≤ (exGet (suggestSkillPivots "Java Backend" none)).moderatePivot.riskScore
    ∧ (exGet (suggestSkillPivots "Java Backend" none)).moderatePivot.riskScore
        ≤ (exGet (suggestSkillPivots "Java Backend" none)).aggressivePivot.riskScore := by
  rw [javaBackendPivots_eval]
  simp only [exGet, javaBackendPivots]
  refine ⟨by decide, by decide, by decide, by decide, by decide, by decide, by norm_num, by norm_num⟩

/-! ## Claim C5 -/

theorem zipWith_all_zero {α β : Type} (f : α → β → ℚ) (hf : ∀ a b, f a b = 0) :
    ∀ (l1 : List α) (l2 : List β), ∀ x ∈ List.zipWith f l1 l2, x = 0 := by
  intro l1
  induction l1 with
  | nil => intro l2 x hx; simp at hx
  | cons a t ih =>
      intro l2 x hx
      cases l2 with
      | nil => simp at hx
      | cons b t2 =>
          rw [List.zipWith_cons_cons] at hx
          rcases List.mem_cons.mp hx with h | h
          · rw [h, hf]
          · exact ih t2 x h

theorem computeAnalytics_allzero (l : List ℚ) (hlen : l.length = 40) (hz : ∀ x ∈ l, x = 0) :
    computeSkillHalfLifeAnalytics l defaultConfig =
      .error "Demand data has no variation; half-life analytics is not meaningful." := by
  have hhead : l.headI = 0 := by
    cases l with
    | nil => simp at hlen
    | cons a rest => exact hz a (List.mem_cons_self a rest)
  have hval : validateInput l defaultConfig =
      .error "Demand data has no variation; half-life analytics is not meaningful." := by
    unfold validateInput
    rw [if_neg (by simp [hlen, defaultConfig]), if_neg, if_pos]
    · intro x hx
      rw [hz x hx, hhead]
      unfold npIsClose
      rw [sub_self, abs_zero]
      positivity
    · rintro ⟨x, hx, hlt⟩
      rw [hz x hx] at hlt
      exact absurd hlt (by norm_num)
  unfold computeSkillHalfLifeAnalytics computeCore
  rw [hval]

theorem simulatedDemand_length (demand : List ℚ) (a drop : ℚ) :
    (simulatedDemand demand a drop).length = demand.length := by
  unfold simulatedDemand
  rw [List.length_zipWith, List.length_map, List.length_map, List.length_range]
  exact min_self _

theorem simulatedDemand_drop100_zero (demand : List ℚ) (a : ℚ) :
    ∀ x ∈ simulatedDemand demand a 100, x = 0 := by
  unfold simulatedDemand
  apply zipWith_all_zero
  intro d p
  rw [show max (0:ℚ) (1 - 100 / 100) = 0 by norm_num, mul_zero, zero_mul]
  exact max_self 0

/-- C5: with `demand_drop_pct = 100` (and in-range values of the other two
shocks), every simulated demand value is zero, so the zero-variance
validation error raised by the half-life recomputation propagates out of
`simulate_scenario` instead of a result being returned. -/
theorem claimC5_drop_100 (demand salary competition : List ℚ) (a s : ℚ)
    (h1 : demand.length = 40) (h2 : salary.length = 40) (h3 : competition.length = 40)
    (ha1 : -50 ≤ a) (ha2 : a ≤ 300) (hs1 : -95 ≤ s) (hs2 : s ≤ 150) :
    simulateScenario demand salary competition a 100 s
      = .error "Demand data has no variation; half-life analytics is not meaningful." := by
  have herr := computeAnalytics_allzero (simulatedDemand demand a 100)
    (by rw [simulatedDemand_length, h1]) (simulatedDemand_drop100_zero demand a)
  unfold simulateScenario
  rw [if_neg (by rw [h1]; exact fun h => h rfl)]
  rw [if_neg (by rw [h1, h2, h3]; rintro (h | h) <;> exact absurd h (by norm_num))]
  rw [if_neg (by rintro (h | h) <;> linarith)]
  rw [if_neg (by rintro (h | h) <;> norm_num at h)]
  rw [if_neg (by rintro (h | h) <;> linarith)]
  dsimp only
  rw [herr]

theorem claimC5_witness :
    (linSeries.length = 40 ∧ (List.replicate 40 (1:ℚ)).length = 40
      ∧ (-50 : ℚ) ≤ 10 ∧ (10 : ℚ) ≤ 300 ∧ (-95 : ℚ) ≤ 5 ∧ (5 : ℚ) ≤ 150)
    ∧ simulateScenario linSeries (List.replicate 40 (1:ℚ)) (List.replicate 40 (1:ℚ)) 10 100 5
        = .error "Demand data has no variation; half-life analytics is not meaningful." :=
  ⟨⟨linSeries_length, by simp, by norm_num, by norm_num, by norm_num, by norm_num⟩,
   claimC5_drop_100 linSeries (List.replicate 40 1) (List.replicate 40 1) 10 5
     linSeries_length (by simp) (by simp) (by norm_num) (by norm_num) (by norm_num) (by norm_num)⟩

/-! ## Claim C4 -/

theorem stabilityScoreOf_bounds (vol : ℝ) (p r : ℚ) :
    0 ≤ stabilityScoreOf vol p r ∧ stabilityScoreOf vol p r ≤ 100 := by
  unfold stabilityScoreOf
  exact roundClamp_bounds 4 _

theorem volatilityIndex_bounds (series : List ℚ) :
    0 ≤ volatilityIndex series ∧ volatilityIndex series ≤ 100 := by
  unfold volatilityIndex
  exact roundClamp_bounds 4 _

theorem confidenceScoreOf_bounds (points : ℕ) (ppR2 fR2 : ℚ) (vol : ℝ) (direct : Bool) :
    0 ≤ confidenceScoreOf points ppR2 fR2 vol direct
    ∧ confidenceScoreOf points ppR2 fR2 vol direct ≤ 100 := by
  unfold confidenceScoreOf
  exact roundClamp_bounds 4 _

theorem evalRisk_bounds (demand competition : List ℚ) (a : Analytics) :
    0 ≤ (evalVolatilityAndRisk demand competition a).riskScore
    ∧ (evalVolatilityAndRisk demand competition a).riskScore ≤ 100 := by
  unfold evalVolatilityAndRisk
  exact roundClamp_bounds 4 _

/-- C4: each of the four signal scores and the five radar axes emitted for a
validated 40-point demand series (with 40-point salary and competition
series) lies in the closed interval [0, 100]; every one of them is a
clamp-to-[0,100] followed by rounding, which preserves the bounds. -/
theorem claimC4_scores_bounded (demand salary competition : List ℚ)
    (_hok : exOk (computeCore demand defaultConfig) = true)
    (_hsal : salary.length = 40) (_hcomp : competition.length = 40) :
    (0 ≤ (analyticsOf demand defaultConfig).stabilityScore
      ∧ (analyticsOf demand defaultConfig).stabilityScore ≤ 100)
    ∧ (0 ≤ (analyticsOf demand defaultConfig).volatilityIndex
      ∧ (analyticsOf demand defaultConfig).volatilityIndex ≤ 100)
    ∧ (0 ≤ (analyticsOf demand defaultConfig).confidenceScore
      ∧ (analyticsOf demand defaultConfig).confidenceScore ≤ 100)
    ∧ (0 ≤ (evalVolatilityAndRisk demand competition (analyticsOf demand defaultConfig)).riskScore
      ∧ (evalVolatilityAndRisk demand competition (analyticsOf demand defaultConfig)).riskScore ≤ 100)
    ∧ (let rad := buildStabilityRadar (analyticsOf demand defaultConfig) demand salary competition
        (evalVolatilityAndRisk demand competition (analyticsOf demand defaultConfig)).volatilityOut
        (evalVolatilityAndRisk demand competition (analyticsOf demand defaultConfig)).riskScore
      (0 ≤ rad.demandStrength ∧ rad.demandStrength ≤ 100)
      ∧ (0 ≤ rad.salaryGrowth ∧ rad.salaryGrowth ≤ 100)
      ∧ (0 ≤ rad.competitionAxis ∧ rad.competitionAxis ≤ 100)
      ∧ (0 ≤ rad.volatilityAxis ∧ rad.volatilityAxis ≤ 100)
      ∧ (0 ≤ rad.automationRisk ∧ rad.automationRisk ≤ 100)) := by
  refine ⟨?_, ?_, ?_, evalRisk_bounds demand competition _, ?_⟩
  · show 0 ≤ stabilityScoreOf _ _ _ ∧ stabilityScoreOf _ _ _ ≤ 100
    exact stabilityScoreOf_bounds _ _ _
  · show 0 ≤ volatilityIndex demand ∧ volatilityIndex demand ≤ 100
    exact volatilityIndex_bounds demand
  · show 0 ≤ confidenceScoreOf _ _ _ _ _ ∧ confidenceScoreOf _ _ _ _ _ ≤ 100
    exact confidenceScoreOf_bounds _ _ _ _ _
  · dsimp only
    unfold buildStabilityRadar
    dsimp only
    exact ⟨radarClamp_bounds _, radarClamp_bounds _, radarClamp_bounds _, radarClamp_bounds _,
      radarClamp_bounds _⟩

theorem claimC4_witness :
    (exOk (computeCore linSeries defaultConfig) = true
      ∧ (List.replicate 40 (1:ℚ)).length = 40 ∧ (List.replicate 40 (2:ℚ)).length = 40)
    ∧ ((0 ≤ (analyticsOf linSeries defaultConfig).stabilityScore
        ∧ (analyticsOf linSeries defaultConfig).stabilityScore ≤ 100)
      ∧ (0 ≤ (analyticsOf linSeries defaultConfig).volatilityIndex
        ∧ (analyticsOf linSeries defaultConfig).volatilityIndex ≤ 100)
      ∧ (0 ≤ (analyticsOf linSeries defaultConfig).confidenceScore
        ∧ (analyticsOf linSeries defaultConfig).confidenceScore ≤ 100)
      ∧ (0 ≤ (evalVolatilityAndRisk linSeries (List.replicate 40 (2:ℚ))
            (analyticsOf linSeries defaultConfig)).riskScore
        ∧ (evalVolatilityAndRisk linSeries (List.replicate 40 (2:ℚ))
            (analyticsOf linSeries defaultConfig)).riskScore ≤ 100)
      ∧ (let rad := buildStabilityRadar (analyticsOf linSeries defaultConfig) linSeries
          (List.replicate 40 (1:ℚ)) (List.replicate 40 (2:ℚ))
          (evalVolatilityAndRisk linSeries (List.replicate 40 (2:ℚ))
            (analyticsOf linSeries defaultConfig)).volatilityOut
          (evalVolatilityAndRisk linSeries (List.replicate 40 (2:ℚ))
            (analyticsOf linSeries defaultConfig)).riskScore
        (0 ≤ rad.demandStrength ∧ rad.demandStrength ≤ 100)
        ∧ (0 ≤ rad.salaryGrowth ∧ rad.salaryGrowth ≤ 100)
        ∧ (0 ≤ rad.competitionAxis ∧ rad.competitionAxis ≤ 100)
        ∧ (0 ≤ rad.volatilityAxis ∧ rad.volatilityAxis ≤ 100)
        ∧ (0 ≤ rad.automationRisk ∧ rad.automationRisk ≤ 100))) :=
  ⟨⟨linSeries_core_ok defaultConfig rfl, by simp, by simp⟩,
   claimC4_scores_bounded linSeries (List.replicate 40 1) (List.replicate 40 2)
     (linSeries_core_ok defaultConfig rfl) (by simp) (by simp)⟩

/-! ## Lemmas about the crossing scan -/

theorem crossScan_eq_first (thr : ℚ) :
    ∀ (i : ℕ) (zl : List (ℚ × ℚ)), crossQualifies thr zl i →
      (∀ j < i, ¬ crossQualifies thr zl j) →
      crossScan thr zl = some (crossInterpAt thr zl i) := by
  intro i
  induction i with
  | zero =>
      intro zl hq _
      rcases zl with _ | ⟨⟨y0, v0⟩, _ | ⟨⟨y1, v1⟩, rest⟩⟩
      · exact absurd hq.1 (by simp)
      · exact absurd hq.1 (by simp)
      · obtain ⟨_, h1, h2, h3⟩ := hq
        simp only [List.getD_cons_zero, List.getD_cons_succ] at h1 h2 h3
        rw [crossScan, if_pos ⟨h1, h2, h3⟩]
        rfl
  | succ i ih =>
      intro zl hq hfirst
      rcases zl with _ | ⟨⟨y0, v0⟩, _ | ⟨⟨y1, v1⟩, rest⟩⟩
      · exact absurd hq.1 (by simp)
      · exact absurd hq.1 (by simp)
      · have hlen : i + 1 + 1 < ((y0, v0) :: (y1, v1) :: rest).length := hq.1
        have h0 : ¬ (thr ≤ v0 ∧ v1 ≤ thr ∧ ¬ npIsClose v0 v1) := by
          intro hc
          refine hfirst 0 (Nat.succ_pos i) ?_
          refine ⟨?_, ?_, ?_, ?_⟩
          · simp only [List.length_cons] at hlen ⊢; omega
          · simpa using hc.1
          · simpa using hc.2.1
          · simpa using hc.2.2
        rw [crossScan, if_neg h0]
        have hq' : crossQualifies thr ((y1, v1) :: rest) i := by
          obtain ⟨hl, h1, h2, h3⟩ := hq
          exact ⟨by simpa using Nat.lt_of_succ_lt_succ hl,
            by simpa using h1, by simpa using h2, by simpa using h3⟩
        have hfirst' : ∀ j < i, ¬ crossQualifies thr ((y1, v1) :: rest) j := by
          intro j hj hcj
          refine hfirst (j + 1) (Nat.succ_lt_succ hj) ?_
          obtain ⟨hl, h1, h2, h3⟩ := hcj
          exact ⟨by simpa using Nat.succ_lt_succ hl, by simpa using h1,
            by simpa using h2, by simpa using h3⟩
        rw [ih ((y1, v1) :: rest) hq' hfirst']
        rfl

theorem crossScan_bounds (thr lo hi : ℚ) :
    ∀ (zl : List (ℚ × ℚ)), (∀ p ∈ zl, lo ≤ p.1 ∧ p.1 ≤ hi) →
      ∀ z : ℚ, crossScan thr zl = some z → lo ≤ z ∧ z ≤ hi := by
  intro zl
  induction zl with
  | nil => intro _ z hz; simp [crossScan] at hz
  | cons p0 rest ih =>
      intro hy z hz
      cases rest with
      | nil =>
          obtain ⟨y0, v0⟩ := p0
          simp [crossScan] at hz
      | cons p1 rest2 =>
          obtain ⟨y0, v0⟩ := p0
          obtain ⟨y1, v1⟩ := p1
          rw [crossScan] at hz
          split_ifs at hz with hc
          · obtain ⟨hc1, hc2, hc3⟩ := hc
            have hvne : v1 < v0 := by
              rcases lt_or_eq_of_le (le_trans hc2 hc1) with h | h
              · exact h
              · exfalso
                apply hc3
                unfold npIsClose
                rw [h, sub_self, abs_zero]
                positivity
            have hy0 := hy (y0, v0) (List.mem_cons_self _ _)
            have hy1 := hy (y1, v1) (List.mem_cons_of_mem _ (List.mem_cons_self _ _))
            have hz' : y0 + (thr - v0) * (y1 - y0) / (v1 - v0) = z := by
              exact Option.some.inj hz
            set t : ℚ := (thr - v0) / (v1 - v0) with hts
            have ht0 : 0 ≤ t := by
              rw [hts]
              exact div_nonneg_of_nonpos (by linarith) (by linarith)
            have ht1 : t ≤ 1 := by
              rw [hts, div_le_one_iff]
              right; right
              exact ⟨by linarith, by linarith⟩
            have hzeq : z = y0 + t * (y1 - y0) := by
              rw [← hz', hts, div_mul_eq_mul_div]
            constructor
            · have e1 : z - lo = (1 - t) * (y0 - lo) + t * (y1 - lo) := by rw [hzeq]; ring
              have p1 : 0 ≤ (1 - t) * (y0 - lo) :=
                mul_nonneg (by linarith) (by linarith [hy0.1])
              have p2 : 0 ≤ t * (y1 - lo) := mul_nonneg ht0 (by linarith [hy1.1])
              linarith
            · have e2 : hi - z = (1 - t) * (hi - y0) + t * (hi - y1) := by rw [hzeq]; ring
              have p1 : 0 ≤ (1 - t) * (hi - y0) :=
                mul_nonneg (by linarith) (by linarith [hy0.2])
              have p2 : 0 ≤ t * (hi - y1) := mul_nonneg ht0 (by linarith [hy1.2])
              linarith
          · exact ih (fun p hp => hy p (List.mem_cons_of_mem _ hp)) z hz

theorem interpolateCrossingYear_eq_scan (d : List ℚ) (cfg : HalfLifeConfig) :
    interpolateCrossingYear ((yearsOf cfg).drop (argmaxIdx d)) (d.drop (argmaxIdx d))
      (halfValueOf d) = crossScan (halfValueOf d) (postPeakPairs d cfg) := rfl

theorem coreBody_of_cross {d : List ℚ} {cfg : HalfLifeConfig} {y : ℚ}
    (hcross : crossScan (halfValueOf d) (postPeakPairs d cfg) = some y) :
    (coreBody d cfg).estimationMethod = "observed"
    ∧ (coreBody d cfg).halfLifeYearRaw = some y
    ∧ (coreBody d cfg).halfLifeYear = some (roundTo 6 y)
    ∧ (coreBody d cfg).yearsFromPeak
        = some (roundTo 6 (y - ((cfg.start_year + (argmaxIdx d : ℤ) : ℤ) : ℚ))) := by
  unfold coreBody
  have hc : interpolateCrossingYear ((yearsOf cfg).drop (argmaxIdx d)) (d.drop (argmaxIdx d))
      (d.getD (argmaxIdx d) 0 / 2) = some y := hcross
  dsimp only
  rw [hc]
  refine ⟨rfl, rfl, rfl, ?_⟩
  dsimp only [Option.map_some]
  norm_num

/-! ## List access helpers -/

theorem getD_drop (l : List ℚ) (k : ℕ) : (l.drop k).getD 0 0 = l.getD k 0 := by
  rw [List.getD_eq_getElem?_getD, List.getD_eq_getElem?_getD, List.getElem?_drop]
  norm_num

theorem headI_eq_getD (l : List ℚ) (h : l ≠ []) : l.headI = l.getD 0 0 := by
  cases l with
  | nil => exact absurd rfl h
  | cons a rest => rfl

theorem getD_map_range (f : ℕ → ℚ) {n i : ℕ} (h : i < n) :
    ((List.range n).map f).getD i 0 = f i := by
  rw [List.getD_eq_getElem?_getD, List.getElem?_map, List.getElem?_range h]
  rfl

theorem getD_zip (l1 l2 : List ℚ) {i : ℕ} (h1 : i < l1.length) (h2 : i < l2.length) :
    (l1.zip l2).getD i (0, 0) = (l1.getD i 0, l2.getD i 0) := by
  have hlen : i < (l1.zip l2).length := by rw [List.length_zip]; omega
  rw [List.getD_eq_getElem _ _ hlen, List.getD_eq_getElem _ _ h1, List.getD_eq_getElem _ _ h2]
  exact List.getElem_zip

theorem mem_drop_map_range {f : ℕ → ℚ} {n k : ℕ} {y : ℚ}
    (hy : y ∈ ((List.range n).map f).drop k) : ∃ i, k ≤ i ∧ i < n ∧ y = f i := by
  rw [← List.map_drop] at hy
  obtain ⟨i, hi, hfy⟩ := List.mem_map.mp hy
  refine ⟨i, ?_, List.mem_range.mp (List.mem_of_mem_drop hi), hfy.symm⟩
  obtain ⟨j, hj, hji⟩ := List.mem_iff_getElem.mp hi
  have hkj : k + j < (List.range n).length := by
    have hlen := hj
    rw [List.length_drop] at hlen
    rw [List.length_range] at hlen ⊢
    omega
  have hdrop : ((List.range n).drop k)[j] = (List.range n)[k + j] := List.getElem_drop _
  rw [hdrop, List.getElem_range] at hji
  omega

theorem postPeakPairs_fst_bounds (d : List ℚ) (cfg : HalfLifeConfig) :
    ∀ p ∈ postPeakPairs d cfg,
      (cfg.start_year : ℚ) + (argmaxIdx d : ℚ) ≤ p.1
      ∧ p.1 ≤ (cfg.start_year : ℚ) + (cfg.required_years : ℚ) - 1 := by
  intro p hp
  have h1 : p.1 ∈ (yearsOf cfg).drop (argmaxIdx d) := (List.of_mem_zip hp).1
  rw [yearsOf] at h1
  obtain ⟨i, hki, hin, hyi⟩ := mem_drop_map_range h1
  rw [hyi]
  have hc1 : (argmaxIdx d : ℚ) ≤ (i : ℚ) := by exact_mod_cast hki
  have hc2 : (i : ℚ) + 1 ≤ (cfg.required_years : ℚ) := by exact_mod_cast hin
  constructor <;> linarith

theorem estimateHalfLifeRegression_headI_le {ys vs : List ℚ} {h est : ℚ}
    (hr : (estimateHalfLifeRegression ys vs h).1 = some est) : ys.headI ≤ est := by
  unfold estimateHalfLifeRegression at hr
  dsimp only at hr
  by_cases h1 : 0 ≤ olsSlope ys vs
  · rw [if_pos h1] at hr
    exact absurd hr (by simp)
  · rw [if_neg h1] at hr
    by_cases h2 : (h - olsIntercept ys vs) / olsSlope ys vs < ys.headI
    · rw [if_pos h2] at hr
      exact absurd hr (by simp)
    · rw [if_neg h2] at hr
      have heq : (h - olsIntercept ys vs) / olsSlope ys vs = est := by simpa using hr
      rw [← heq]
      exact not_lt.mp h2

/-! ## The crossing of the linear example series -/

theorem yearsOf_length : (yearsOf defaultConfig).length = 40 := by
  rw [yearsOf, List.length_map, List.length_range]
  rfl

theorem linSeries_getD {i : ℕ} (h : i < 40) : linSeries.getD i 0 = 100 - 2 * (i : ℚ) := by
  rw [linSeries]
  exact getD_map_range _ h

theorem yearsOf_getD {i : ℕ} (h : i < 40) :
    (yearsOf defaultConfig).getD i 0 = 1985 + (i : ℚ) := by
  rw [yearsOf]
  rw [getD_map_range _ (show i < defaultConfig.required_years from h)]
  norm_num [defaultConfig]

theorem linSeries_pairs_getD {j : ℕ} (h : j < 40) :
    (postPeakPairs linSeries defaultConfig).getD j (0, 0)
      = (1985 + (j : ℚ), 100 - 2 * (j : ℚ)) := by
  unfold postPeakPairs
  rw [linSeries_argmax, List.drop_zero, List.drop_zero]
  rw [getD_zip _ _ (by rw [yearsOf_length]; exact h) (by rw [linSeries_length]; exact h)]
  rw [linSeries_getD h, yearsOf_getD h]

theorem linSeries_pairs_length : (postPeakPairs linSeries defaultConfig).length = 40 := by
  unfold postPeakPairs
  rw [linSeries_argmax, List.drop_zero, List.drop_zero, List.length_zip, yearsOf_length,
    linSeries_length]
  exact min_self 40

theorem linSeries_halfValue : halfValueOf linSeries = 50 := by
  unfold halfValueOf
  rw [linSeries_argmax, linSeries_getD (by norm_num)]
  norm_num

theorem linSeries_qualifies : crossQualifies 50 (postPeakPairs linSeries defaultConfig) 24 := by
  refine ⟨by rw [linSeries_pairs_length]; norm_num, ?_, ?_, ?_⟩
  · rw [linSeries_pairs_getD (by norm_num : (24 : ℕ) < 40)]
    push_cast
    norm_num
  · rw [linSeries_pairs_getD (by norm_num : (24 + 1 : ℕ) < 40)]
    push_cast
    norm_num
  · rw [linSeries_pairs_getD (by norm_num : (24 : ℕ) < 40),
      linSeries_pairs_getD (by norm_num : (24 + 1 : ℕ) < 40)]
    unfold npIsClose
    intro habs
    push_cast at habs
    rw [show (100 : ℚ) - 2 * 24 - (100 - 2 * 25) = 2 by norm_num] at habs
    rw [abs_of_nonneg (by norm_num : (0:ℚ) ≤ 2),
      abs_of_nonneg (by norm_num : (0:ℚ) ≤ 100 - 2 * 25)] at habs
    norm_num at habs

theorem linSeries_first_qualifying :
    ∀ j < 24, ¬ crossQualifies 50 (postPeakPairs linSeries defaultConfig) j := by
  intro j hj hq
  obtain ⟨_, _, h2, _⟩ := hq
  rw [linSeries_pairs_getD (show j + 1 < 40 by omega)] at h2
  have hc : (j : ℚ) ≤ 23 := by exact_mod_cast Nat.le_of_lt_succ hj
  push_cast at h2
  linarith

theorem linSeries_cross :
    crossScan (halfValueOf linSeries) (postPeakPairs linSeries defaultConfig) = some 2010 := by
  rw [linSeries_halfValue,
    crossScan_eq_first 50 24 _ linSeries_qualifies linSeries_first_qualifying]
  congr 1
  unfold crossInterpAt
  rw [linSeries_pairs_getD (by norm_num : (24 : ℕ) < 40),
    linSeries_pairs_getD (by norm_num : (24 + 1 : ℕ) < 40)]
  norm_num

/-! ## Claims C7 and C10 -/

theorem coreBody_of_cross_none {d : List ℚ} {cfg : HalfLifeConfig}
    (hcross : crossScan (halfValueOf d) (postPeakPairs d cfg) = none) :
    (coreBody d cfg).yearsFromPeak
      = (estimateHalfLifeRegression ((yearsOf cfg).drop (argmaxIdx d)) (d.drop (argmaxIdx d))
          (halfValueOf d)).1.map
        (fun y => roundTo 6 (y - ((cfg.start_year + (argmaxIdx d : ℤ) : ℤ) : ℚ))) := by
  unfold coreBody
  have hc : interpolateCrossingYear ((yearsOf cfg).drop (argmaxIdx d)) (d.drop (argmaxIdx d))
      (d.getD (argmaxIdx d) 0 / 2) = none := hcross
  dsimp only
  rw [hc]
  congr 1

/-- C7: whenever the returned `half_life.years_from_peak` is non-null (the
"observed" and "regression_estimate" paths alike), it is non-negative: the
observed crossing lies inside the post-peak year range, and the regression
estimate is discarded when it precedes the first post-peak year. -/
theorem claimC7_years_from_peak_nonneg (d : List ℚ)
    (hok : exOk (computeCore d defaultConfig) = true)
    (v : ℚ) (hv : (coreD d defaultConfig).yearsFromPeak = some v) : 0 ≤ v := by
  rcases (computeCore_ok_iff d defaultConfig).mp hok with ⟨hval, hguard⟩
  have hlen : d.length = 40 := ((validateInput_ok_iff d defaultConfig).mp hval).1
  rw [coreD_eq_body hok] at hv
  cases hcross : crossScan (halfValueOf d) (postPeakPairs d defaultConfig) with
  | some y =>
      obtain ⟨_, _, _, hyfp⟩ := coreBody_of_cross hcross
      rw [hyfp, Option.some.injEq] at hv
      have hbound := (crossScan_bounds (halfValueOf d)
        ((defaultConfig.start_year : ℚ) + (argmaxIdx d : ℚ))
        ((defaultConfig.start_year : ℚ) + (defaultConfig.required_years : ℚ) - 1)
        (postPeakPairs d defaultConfig) (postPeakPairs_fst_bounds d defaultConfig) y hcross).1
      rw [← hv]
      apply le_roundTo_of_int_le 6 (m := 0)
      push_cast
      push_cast at hbound
      linarith
  | none =>
      rw [coreBody_of_cross_none hcross] at hv
      cases hreg : (estimateHalfLifeRegression ((yearsOf defaultConfig).drop (argmaxIdx d))
          (d.drop (argmaxIdx d)) (halfValueOf d)).1 with
      | none => rw [hreg] at hv; exact absurd hv (by simp)
      | some est =>
          rw [hreg] at hv
          rw [Option.map_some', Option.some.injEq] at hv
          have hhead := estimateHalfLifeRegression_headI_le hreg
          have hidx : argmaxIdx d < 40 := by
            rw [hlen] at hguard
            omega
          have hne : (yearsOf defaultConfig).drop (argmaxIdx d) ≠ [] := by
            intro hnil
            have hlen0 := congrArg List.length hnil
            rw [List.length_drop, yearsOf_length, List.length_nil] at hlen0
            omega
          rw [headI_eq_getD _ hne, getD_drop, yearsOf,
            getD_map_range _ (show argmaxIdx d < defaultConfig.required_years from hidx)] at hhead
          rw [← hv]
          apply le_roundTo_of_int_le 6 (m := 0)
          push_cast
          linarith

theorem claimC7_witness :
    exOk (computeCore linSeries defaultConfig) = true
    ∧ (coreD linSeries defaultConfig).yearsFromPeak = some 25
    ∧ (0 : ℚ) ≤ 25 := by
  have hok := linSeries_core_ok defaultConfig rfl
  have hcross : crossScan (halfValueOf linSeries) (postPeakPairs linSeries defaultConfig)
      = some 2010 := linSeries_cross
  obtain ⟨_, _, _, hyfp⟩ := coreBody_of_cross hcross
  have h25 : (coreD linSeries defaultConfig).yearsFromPeak = some 25 := by
    rw [coreD_eq_body hok, hyfp, linSeries_argmax]
    rw [show (2010 : ℚ) - ((defaultConfig.start_year + ((0 : ℕ) : ℤ) : ℤ) : ℚ) = ((25 : ℤ) : ℚ) by
      norm_num [defaultConfig]]
    rw [roundTo_intCast 6 25]
    norm_num
  exact ⟨hok, h25, claimC7_years_from_peak_nonneg linSeries hok 25 h25⟩

theorem coreBody_method_of_none {d : List ℚ} {cfg : HalfLifeConfig}
    (hcross : crossScan (halfValueOf d) (postPeakPairs d cfg) = none) :
    (coreBody d cfg).estimationMethod ≠ "observed" := by
  unfold coreBody
  have hc : interpolateCrossingYear ((yearsOf cfg).drop (argmaxIdx d)) (d.drop (argmaxIdx d))
      (d.getD (argmaxIdx d) 0 / 2) = none := hcross
  dsimp only
  rw [hc]
  cases hr : (estimateHalfLifeRegression ((yearsOf cfg).drop (argmaxIdx d))
      (d.drop (argmaxIdx d)) (d.getD (argmaxIdx d) 0 / 2)).1 with
  | none => decide
  | some est =>
      dsimp only
      decide

/-- C10: whenever `estimation_method` is "observed", the emitted
`half_life.year` lies between the peak year and the final year of the series
(1985 + 39 = 2024), inclusive: the interpolated crossing falls inside the
adjacent post-peak year pair that brackets it, and rounding to six decimal
places respects the integer year bounds. -/
theorem claimC10_observed_year_in_range (d : List ℚ)
    (hok : exOk (computeCore d defaultConfig) = true)
    (hobs : (coreD d defaultConfig).estimationMethod = "observed")
    (y : ℚ) (hy : (coreD d defaultConfig).halfLifeYear = some y) :
    ((coreD d defaultConfig).peakYear : ℚ) ≤ y ∧ y ≤ 1985 + 39 := by
  rw [coreD_eq_body hok] at hobs hy ⊢
  cases hcross : crossScan (halfValueOf d) (postPeakPairs d defaultConfig) with
  | none => exact absurd hobs (coreBody_method_of_none hcross)
  | some y0 =>
      obtain ⟨_, _, hhl, _⟩ := coreBody_of_cross hcross
      rw [hhl, Option.some.injEq] at hy
      have hbound := crossScan_bounds (halfValueOf d)
        ((defaultConfig.start_year : ℚ) + (argmaxIdx d : ℚ))
        ((defaultConfig.start_year : ℚ) + (defaultConfig.required_years : ℚ) - 1)
        (postPeakPairs d defaultConfig) (postPeakPairs_fst_bounds d defaultConfig) y0 hcross
      rw [show (coreBody d defaultConfig).peakYear
        = defaultConfig.start_year + (argmaxIdx d : ℤ) from rfl]
      rw [← hy]
      constructor
      · apply le_roundTo_of_int_le 6
        push_cast
        have := hbound.1
        push_cast at this
        linarith
      · have h2024 : y0 ≤ ((2024 : ℤ) : ℚ) := by
          have := hbound.2
          norm_num [defaultConfig] at this ⊢
          linarith
        have := roundTo_le_of_le_int 6 h2024
        norm_num at this ⊢
        linarith

theorem claimC10_witness :
    exOk (computeCore linSeries defaultConfig) = true
    ∧ (coreD linSeries defaultConfig).estimationMethod = "observed"
    ∧ (coreD linSeries defaultConfig).halfLifeYear = some 2010
    ∧ ((coreD linSeries defaultConfig).peakYear : ℚ) ≤ 2010 ∧ (2010 : ℚ) ≤ 1985 + 39 := by
  have hok := linSeries_core_ok defaultConfig rfl
  obtain ⟨hm, _, hhl, _⟩ := coreBody_of_cross linSeries_cross
  have hm' : (coreD linSeries defaultConfig).estimationMethod = "observed" := by
    rw [coreD_eq_body hok]; exact hm
  have hy' : (coreD linSeries defaultConfig).halfLifeYear = some 2010 := by
    rw [coreD_eq_body hok, hhl]
    rw [show (2010 : ℚ) = ((2010 : ℤ) : ℚ) by norm_num, roundTo_intCast 6 2010]
  exact ⟨hok, hm', hy',
    claimC10_observed_year_in_range linSeries hok hm' 2010 hy'⟩

/-! ## Claim C1 -/

/-- C1 (amended): for every validated demand series whose post-peak sequence
has a first adjacent pair with earlier value ≥ half the peak ≥ later value
and the values not numerically close (the `np.isclose` guard of the source),
the analytics report `estimation_method = "observed"` and `half_life.year`
equal to the linear interpolation at that first pair, rounded to six decimal
places.  (For the spec's linear 100→22 example the crossing is year 2010,
i.e. `years_from_peak = 25.0` — not ≈ 38.46 as the spec claims.) -/
theorem claimC1_observed_first_crossing (d : List ℚ) (i : ℕ)
    (hok : exOk (computeCore d defaultConfig) = true)
    (hq : crossQualifies (halfValueOf d) (postPeakPairs d defaultConfig) i)
    (hfirst : ∀ j < i, ¬ crossQualifies (halfValueOf d) (postPeakPairs d defaultConfig) j) :
    (coreD d defaultConfig).estimationMethod = "observed"
    ∧ (coreD d defaultConfig).halfLifeYear
        = some (roundTo 6 (crossInterpAt (halfValueOf d) (postPeakPairs d defaultConfig) i)) := by
  have hscan := crossScan_eq_first (halfValueOf d) i _ hq hfirst
  rw [coreD_eq_body hok]
  obtain ⟨h1, _, h3, _⟩ := coreBody_of_cross hscan
  exact ⟨h1, h3⟩

theorem claimC1_witness :
    exOk (computeCore linSeries defaultConfig) = true
    ∧ crossQualifies (halfValueOf linSeries) (postPeakPairs linSeries defaultConfig) 24
    ∧ ((coreD linSeries defaultConfig).estimationMethod = "observed"
      ∧ (coreD linSeries defaultConfig).halfLifeYear
          = some (roundTo 6 (crossInterpAt (halfValueOf linSeries)
              (postPeakPairs linSeries defaultConfig) 24))) := by
  have hok := linSeries_core_ok defaultConfig rfl
  have hq : crossQualifies (halfValueOf linSeries) (postPeakPairs linSeries defaultConfig) 24 := by
    rw [linSeries_halfValue]
    exact linSeries_qualifies
  have hf : ∀ j < 24, ¬ crossQualifies (halfValueOf linSeries)
      (postPeakPairs linSeries defaultConfig) j := by
    intro j hj
    rw [linSeries_halfValue]
    exact linSeries_first_qualifying j hj
  exact ⟨hok, hq, claimC1_observed_first_crossing linSeries 24 hok hq hf⟩

/-- C1 (counterexample to the claim as stated): for the linear series
declining from 100 to 22 over 40 years from 1985, the peak is (1985, 100)
and the threshold is 50 as claimed, but `years_from_peak` is exactly 25.0 —
not approximately 38.46. -/
theorem claimC1_counterexample :
    exOk (computeCore linSeries defaultConfig) = true
    ∧ (coreD linSeries defaultConfig).peakYear = 1985
    ∧ (coreD linSeries defaultConfig).peakValue = 100
    ∧ (coreD linSeries defaultConfig).halfValue = 50
    ∧ (coreD linSeries defaultConfig).estimationMethod = "observed"
    ∧ (coreD linSeries defaultConfig).yearsFromPeak = some 25
    ∧ 1 < |(25 : ℚ) - 38.46| := by
  have hok := linSeries_core_ok defaultConfig rfl
  obtain ⟨hm, _, _, hyfp⟩ := coreBody_of_cross linSeries_cross
  refine ⟨hok, ?_, ?_, ?_, ?_, ?_, ?_⟩
  · rw [coreD_eq_body hok]
    show defaultConfig.start_year + (argmaxIdx linSeries : ℤ) = 1985
    rw [linSeries_argmax]
    rfl
  · rw [coreD_eq_body hok]
    show linSeries.getD (argmaxIdx linSeries) 0 = 100
    rw [linSeries_argmax, linSeries_getD (by norm_num)]
    norm_num
  · rw [coreD_eq_body hok]
    show linSeries.getD (argmaxIdx linSeries) 0 / 2 = 50
    rw [linSeries_argmax, linSeries_getD (by norm_num)]
    norm_num
  · rw [coreD_eq_body hok]
    exact hm
  · rw [coreD_eq_body hok, hyfp, linSeries_argmax]
    rw [show (2010 : ℚ) - ((defaultConfig.start_year + ((0 : ℕ) : ℤ) : ℤ) : ℚ) = ((25 : ℤ) : ℚ)
      by norm_num [defaultConfig]]
    rw [roundTo_intCast 6 25]
    norm_num
  · rw [show (25 : ℚ) - 38.46 = -(13.46) by norm_num, abs_neg,
      abs_of_nonneg (by norm_num : (0:ℚ) ≤ 13.46)]
    norm_num

/-! ## Claim C8 -/

theorem getD_replicate {n i : ℕ} (a d : ℚ) (h : i < n) :
    (List.replicate n a).getD i d = a := by
  rw [List.getD_eq_getElem _ _ (by rw [List.length_replicate]; exact h), List.getElem_replicate]

theorem insertionSort_const (n : ℕ) (a : ℚ) :
    List.insertionSort (fun x y => x ≤ y) (List.replicate n a) = List.replicate n a := by
  induction n with
  | zero => rfl
  | succ k ih =>
      rw [List.replicate_succ, List.insertionSort, ih]
      cases k with
      | zero => rfl
      | succ m =>
          rw [List.replicate_succ, List.orderedInsert, if_pos (le_refl a),
            ← List.replicate_succ, ← List.replicate_succ]

theorem percentile_const_10 : percentileNP (List.replicate 40 (7:ℚ)) 10 = 7 := by
  simp only [percentileNP, insertionSort_const, List.length_replicate]
  rw [show ((10:ℚ) * (((40:ℕ):ℚ) - 1) / 100) = 39 / 10 by norm_num]
  rw [show (Int.floor ((39:ℚ) / 10)).toNat = 3 by
    rw [show Int.floor ((39:ℚ) / 10) = (3:ℤ) by norm_num]; decide]
  rw [getD_replicate 7 0 (by norm_num), getD_replicate 7 7 (by norm_num)]
  ring

theorem percentile_const_90 : percentileNP (List.replicate 40 (7:ℚ)) 90 = 7 := by
  simp only [percentileNP, insertionSort_const, List.length_replicate]
  rw [show ((90:ℚ) * (((40:ℕ):ℚ) - 1) / 100) = 351 / 10 by norm_num]
  rw [show (Int.floor ((351:ℚ) / 10)).toNat = 35 by
    rw [show Int.floor ((351:ℚ) / 10) = (35:ℤ) by norm_num]; decide]
  rw [getD_replicate 7 0 (by norm_num), getD_replicate 7 7 (by norm_num)]
  ring

/-- C8 (amended): in `build_stability_radar`, the demand and competition axes
map the series' final value onto the series' own 10th–90th percentile band,
clamped to [0, 100] — with the fixed midpoint 50 whenever the band endpoints
are numerically close in the `np.isclose` sense (not only when they exactly
coincide).  Exact coincidence is a special case of the 50 fallback. -/
theorem claimC8_band_normalization (demand competition : List ℚ)
    (hco : percentileNP demand 90 = percentileNP demand 10) :
    computeDemandStrength demand
      = (if npIsClose (percentileNP demand 90) (percentileNP demand 10) then (50 : ℚ)
         else radarClamp ((demand.getLastD 0 - percentileNP demand 10)
            / (percentileNP demand 90 - percentileNP demand 10) * 100))
    ∧ computeCompetitionScore competition
      = (if npIsClose (percentileNP competition 90) (percentileNP competition 10) then (50 : ℚ)
         else radarClamp ((competition.getLastD 0 - percentileNP competition 10)
            / (percentileNP competition 90 - percentileNP competition 10) * 100))
    ∧ computeDemandStrength demand = 50 := by
  refine ⟨rfl, rfl, ?_⟩
  unfold computeDemandStrength normalizeRelativePosition
  rw [if_pos]
  unfold npIsClose
  rw [hco, sub_self, abs_zero]
  positivity

theorem claimC8_witness :
    percentileNP (List.replicate 40 (7:ℚ)) 90 = percentileNP (List.replicate 40 (7:ℚ)) 10
    ∧ (computeDemandStrength (List.replicate 40 (7:ℚ))
        = (if npIsClose (percentileNP (List.replicate 40 (7:ℚ)) 90)
              (percentileNP (List.replicate 40 (7:ℚ)) 10) then (50 : ℚ)
           else radarClamp (((List.replicate 40 (7:ℚ)).getLastD 0
              - percentileNP (List.replicate 40 (7:ℚ)) 10)
              / (percentileNP (List.replicate 40 (7:ℚ)) 90
                - percentileNP (List.replicate 40 (7:ℚ)) 10) * 100))
      ∧ computeCompetitionScore (List.replicate 40 (7:ℚ))
        = (if npIsClose (percentileNP (List.replicate 40 (7:ℚ)) 90)
              (percentileNP (List.replicate 40 (7:ℚ)) 10) then (50 : ℚ)
           else radarClamp (((List.replicate 40 (7:ℚ)).getLastD 0
              - percentileNP (List.replicate 40 (7:ℚ)) 10)
              / (percentileNP (List.replicate 40 (7:ℚ)) 90
                - percentileNP (List.replicate 40 (7:ℚ)) 10) * 100))
      ∧ computeDemandStrength (List.replicate 40 (7:ℚ)) = 50) := by
  have hco : percentileNP (List.replicate 40 (7:ℚ)) 90
      = percentileNP (List.replicate 40 (7:ℚ)) 10 := by
    rw [percentile_const_10, percentile_const_90]
  exact ⟨hco, claimC8_band_normalization _ (List.replicate 40 (7:ℚ)) hco⟩

theorem c8Series_sorted :
    List.insertionSort (fun a b => a ≤ b) c8Series = c8Series := by
  simp only [c8Series, List.replicate, List.append_eq, List.cons_append, List.nil_append]
  norm_num [List.insertionSort, List.orderedInsert]

theorem c8_p10 : percentileNP c8Series 10 = 10 := by
  simp only [percentileNP, c8Series_sorted]
  rw [show c8Series.length = 40 from rfl]
  rw [show ((10:ℚ) * (((40:ℕ):ℚ) - 1) / 100) = 39 / 10 by norm_num]
  rw [show (Int.floor ((39:ℚ) / 10)).toNat = 3 by
    rw [show Int.floor ((39:ℚ) / 10) = (3:ℤ) by norm_num]; decide]
  rw [show c8Series.getD 3 0 = 10 from rfl]
  rw [show c8Series.getD (3 + 1) 10 = 10 from rfl]
  ring

theorem c8_p90 : percentileNP c8Series 90 = 1000001 / 100000 := by
  simp only [percentileNP, c8Series_sorted]
  rw [show c8Series.length = 40 from rfl]
  rw [show ((90:ℚ) * (((40:ℕ):ℚ) - 1) / 100) = 351 / 10 by norm_num]
  rw [show (Int.floor ((351:ℚ) / 10)).toNat = 35 by
    rw [show Int.floor ((351:ℚ) / 10) = (35:ℤ) by norm_num]; decide]
  rw [show c8Series.getD 35 0 = 10 from rfl]
  rw [show c8Series.getD (35 + 1) 10 = 10 + 1 / 10000 from rfl]
  norm_num

/-- C8 (counterexample to the claim as stated): a series whose 10th and 90th
percentiles differ (by 1e-5) but are numerically close.  The code returns the
fixed midpoint 50 for the demand-strength axis, while the claim's
linear-map-and-clamp prescription would give 100. -/
theorem claimC8_counterexample :
    percentileNP c8Series 10 = 10
    ∧ percentileNP c8Series 90 = 1000001 / 100000
    ∧ percentileNP c8Series 90 ≠ percentileNP c8Series 10
    ∧ computeDemandStrength c8Series = 50
    ∧ radarClamp ((c8Series.getLastD 0 - percentileNP c8Series 10)
        / (percentileNP c8Series 90 - percentileNP c8Series 10) * 100) = 100
    ∧ (50 : ℚ) ≠ 100 := by
  have hlast : c8Series.getLastD 0 = 10 + 1 / 10000 := rfl
  refine ⟨c8_p10, c8_p90, ?_, ?_, ?_, by norm_num⟩
  · rw [c8_p10, c8_p90]
    norm_num
  · unfold computeDemandStrength normalizeRelativePosition
    rw [if_pos]
    rw [c8_p10, c8_p90]
    unfold npIsClose
    rw [show (1000001 : ℚ) / 100000 - 10 = 1 / 100000 by norm_num]
    rw [abs_of_nonneg (by norm_num : (0:ℚ) ≤ 1 / 100000),
      abs_of_nonneg (by norm_num : (0:ℚ) ≤ 10)]
    norm_num
  · rw [hlast, c8_p10, c8_p90]
    rw [show ((10 : ℚ) + 1 / 10000 - 10) / (1000001 / 100000 - 10) * 100 = 1000 by norm_num]
    unfold radarClamp clampScore
    rw [show max (0:ℚ) (min 100 1000) = 100 by norm_num]
    rw [show (100 : ℚ) = ((100 : ℤ) : ℚ) by norm_num, roundTo_intCast]

end RSHL
